import Mathlib

/-!
# Pressure regulator module (`arduino/pressure_sensor_module.h`)

A shallow embedding of `nebree8::PressureSensorModule`: the regulator's state,
its sample step `ReadPressure`, the message decoder `AcceptMessage`, the valve
command encoder `SetPressureValve` and the cooperative `Tick`.

Conventions of the embedding.

* A byte is a `Fin 256`; a C `float` is its 32-bit IEEE-754 bit pattern, a
  `Fin 2^32`. Storing a float into a byte buffer writes its four bytes in the
  controller's native (little-endian) order; comparisons follow IEEE-754
  (any comparison with a NaN is false, the two zeros are equal).
* The sensor reading and the clock are inputs of the operations that use them.
* Members the constructor leaves uninitialised keep the value they are given.
* Reading a received command past its last byte is undefined in C; the
  decoder returns `none` there.
-/

namespace nebree8

/-! ## Bytes and floats -/

/-- An `unsigned char`. -/
abbrev Byte := Fin 256

/-- The bit pattern of a 32-bit `float`. -/
abbrev FloatBits := Fin 4294967296

/-- The low eight bits of a number, as a byte. -/
def byteOf (n : Nat) : Byte := ⟨n % 256, Nat.mod_lt _ (by decide)⟩

/-- The four bytes of a float in memory order (least significant first). -/
def floatBytes (x : FloatBits) : List Byte :=
  [byteOf x.val, byteOf (x.val / 256), byteOf (x.val / 65536), byteOf (x.val / 16777216)]

/-- The float whose four bytes in memory order are `b0 b1 b2 b3`. -/
def bytesFloat (b0 b1 b2 b3 : Byte) : FloatBits :=
  ⟨b0.val + 256 * b1.val + 65536 * b2.val + 16777216 * b3.val, by
    have h0 := b0.isLt
    have h1 := b1.isLt
    have h2 := b2.isLt
    have h3 := b3.isLt
    omega⟩

/-- A float is a NaN when its exponent field is all ones and its fraction is not zero. -/
def floatIsNaN (x : FloatBits) : Bool :=
  decide (x.val / 8388608 % 256 = 255) && decide (x.val % 8388608 ≠ 0)

/-- An integer that orders the floats that are not NaN as IEEE-754 does:
sign and magnitude, both zeros at 0. -/
def floatKey (x : FloatBits) : Int :=
  if x.val / 2147483648 = 1 then -((x.val % 2147483648 : Nat) : Int)
  else ((x.val % 2147483648 : Nat) : Int)

/-- The C comparison `a < b` on floats (`a > b` is `floatLt b a`). -/
def floatLt (a b : FloatBits) : Bool :=
  !floatIsNaN a && !floatIsNaN b && decide (floatKey a < floatKey b)

/-- The C comparison `a <= b` on floats. -/
def floatLe (a b : FloatBits) : Bool :=
  !floatIsNaN a && !floatIsNaN b && decide (floatKey a ≤ floatKey b)

/-- Reads the float stored at byte offset `off` of a byte sequence, when all
four bytes are there. -/
def loadFloat? (l : List Byte) (off : Nat) : Option FloatBits :=
  match l[off]?, l[off + 1]?, l[off + 2]?, l[off + 3]? with
  | some b0, some b1, some b2, some b3 => some (bytesFloat b0 b1 b2 b3)
  | _, _, _, _ => none

/-- Overwrites the four bytes at byte offset `off` with the bytes of `x`. -/
def storeFloat (l : List Byte) (off : Nat) (x : FloatBits) : List Byte :=
  l.take off ++ floatBytes x ++ l.drop (off + 4)

/-! ## Constants of the module -/

/-- The source's `kPressureSize`: 4 bytes per float, plus state. -/
def kPressureSize : Nat := 4 * 3 + 1

/-- The literal `"GETP"`. -/
def GET_PRESSURE : List Byte := [71, 69, 84, 80]

/-- The source's `GET_PRESSURE_LENGTH`. -/
def GET_PRESSURE_LENGTH : Nat := 4

/-- The literal `"HOLDP"`. -/
def HOLD_PRESSURE : List Byte := [72, 79, 76, 68, 80]

/-- The source's `HOLD_PRESSURE_LENGTH`. -/
def HOLD_PRESSURE_LENGTH : Nat := 5

/-- The source's `kOutgoingAddress` of `AcceptMessage`. -/
def kOutgoingAddress : Nat := 99

/-- The source's `kLocalAddress` of `SetPressureValve`. -/
def kLocalAddress : Nat := 0

/-- The source's `kSetIoSize` of `SetPressureValve`. -/
def kSetIoSize : Nat := 8

/-- The six characters `"SET_IO"` copied by `strncpy(command, "SET_IO", 6)`. -/
def kSetIoTag : List Byte := [83, 69, 84, 95, 73, 79]

/-! ## Collaborators -/

/-- Modelled from the spec: `arduinoio::Message` (`arduinoio/lib/message.h` is
not among the sources). A message is an address and a command, a sequence of
bytes ("`deliver(bytes, address)`"). -/
structure Message where
  /-- The address the message is for. -/
  address : Nat
  /-- The command bytes; `command(&length)` returns them and their number. -/
  command : List Byte
deriving DecidableEq, Repr

/-- Modelled from the spec: `Message::Reset(address, command_length, command)`
replaces the content of a message by the address and a copy of the first
`command_length` bytes at `command` (`SetPressureValve` passes a local array,
so the bytes are copied). -/
def Message.Reset (_self : Message) (address command_length : Nat) (command : List Byte) :
    Message :=
  { address := address, command := command.take command_length }

/-- Modelled from the spec: `arduinoio::TimedCallback`
(`arduinoio/lib/timed_callback.h` is not among the sources), the
"sampling-interval gate": it is created at some time with a delay in
milliseconds and its `Update` calls back once the delay has elapsed. -/
structure TimedCallback where
  /-- The delay in milliseconds. -/
  delay_ms : Nat
  /-- The time of creation, in milliseconds. -/
  start_ms : Nat
deriving DecidableEq, Repr

/-- Modelled from the spec: whether "a sampling interval has elapsed" at time
`now`. -/
def TimedCallback.elapsed (t : TimedCallback) (now : Nat) : Bool :=
  decide (t.start_ms + t.delay_ms ≤ now)

/-- The C library's `strncmp(s1, s2, n)`: compares at most `n` characters and
stops after a NUL; the result is zero when no character differed. `s1` is a
received command and reading it past its end is undefined (`none`); `s2` is a
literal of at least `n` characters. -/
def strncmp : List Byte → List Byte → Nat → Option Int
  | _, _, 0 => some 0
  | a :: s1, b :: s2, n + 1 =>
    if a ≠ b then some ((a.val : Int) - (b.val : Int))
    else if a = 0 then some 0
    else strncmp s1 s2 n
  | _, _, _ + 1 => none

/-! ## The module -/

/-- The source's `enum State`. -/
inductive State where
  | DEPRESSURIZED
  | INCREASE_PRESSURE
  | MAINTAIN_PRESSURE
  | ERROR
deriving DecidableEq, Repr

/-- The value of a `State` enumerator, as stored into an `unsigned char`. -/
def State.code : State → Byte
  | .DEPRESSURIZED => 0
  | .INCREASE_PRESSURE => 1
  | .MAINTAIN_PRESSURE => 2
  | .ERROR => 3

/-- The source's `unsigned char pressure_[kPressureSize]`. -/
abbrev PressureBuf := { l : List Byte // l.length = kPressureSize }

/-- The source's `((float*) pressure_)[i] = x` for `i < 3`. -/
def PressureBuf.setFloat (buf : PressureBuf) (i : Fin 3) (x : FloatBits) : PressureBuf :=
  ⟨storeFloat buf.1 (4 * i.val) x, by
    have h := buf.2
    have hi := i.isLt
    simp only [storeFloat, floatBytes, List.length_append, List.length_take, List.length_drop,
      List.length_cons, List.length_nil, h, kPressureSize]
    omega⟩

/-- The source's `((float*) pressure_)[i]` for `i < 3`. -/
def PressureBuf.getFloat (buf : PressureBuf) (i : Fin 3) : FloatBits :=
  have h : 4 * i.val + 3 < buf.1.length := by
    have h := buf.2
    have hi := i.isLt
    simp only [h, kPressureSize]
    omega
  bytesFloat (buf.1.get ⟨4 * i.val, by omega⟩) (buf.1.get ⟨4 * i.val + 1, by omega⟩)
    (buf.1.get ⟨4 * i.val + 2, by omega⟩) (buf.1.get ⟨4 * i.val + 3, h⟩)

/-- The source's `pressure_[i] = b` for `i < kPressureSize`. -/
def PressureBuf.setByte (buf : PressureBuf) (i : Fin 13) (b : Byte) : PressureBuf :=
  ⟨buf.1.set i.val b, by simp [buf.2]⟩

/-- The members of `PressureSensorModule` (the sensor handle apart: the
reading it returns is an input of `ReadPressure`). -/
structure PressureSensorModule where
  /-- `arduinoio::Message message_`: the outbound slot. -/
  message_ : Message
  /-- `timed_callback_`, `none` for `NULL`. -/
  timed_callback_ : Option TimedCallback
  /-- `unsigned char pressure_[kPressureSize]`. -/
  pressure_ : PressureBuf
  /-- `State state_`. -/
  state_ : State
  /-- `float hold_pressure_mbar_min_`. -/
  hold_pressure_mbar_min_ : FloatBits
  /-- `float hold_pressure_mbar_max_`. -/
  hold_pressure_mbar_max_ : FloatBits
  /-- `unsigned char pressure_valve_pin_`. -/
  pressure_valve_pin_ : Byte
  /-- `float last_reading_`. -/
  last_reading_ : FloatBits
  /-- `float second_last_reading_`. -/
  second_last_reading_ : FloatBits
  /-- `bool outgoing_message_ready_`. -/
  outgoing_message_ready_ : Bool
deriving DecidableEq

/-- The constructor: it sets `timed_callback_`, `outgoing_message_ready_` and
`state_`; every other member keeps the indeterminate value it has in `mem`. -/
def construct (mem : PressureSensorModule) : PressureSensorModule :=
  { mem with
    timed_callback_ := none
    outgoing_message_ready_ := false
    state_ := .DEPRESSURIZED }

/-- The source's `SetPressureValve(on)`; the parameter `on` is written `on_`. -/
def SetPressureValve (m : PressureSensorModule) (on_ : Byte) : PressureSensorModule :=
  let command : List Byte := kSetIoTag ++ [m.pressure_valve_pin_, on_]
  { m with
    message_ := m.message_.Reset kLocalAddress kSetIoSize command
    outgoing_message_ready_ := true }

/-- The source's `ClosePressureValve()`. -/
def ClosePressureValve (m : PressureSensorModule) : PressureSensorModule :=
  SetPressureValve m 0

/-- The source's `OpenPressureValve()`. -/
def OpenPressureValve (m : PressureSensorModule) : PressureSensorModule :=
  SetPressureValve m 1

/-- The source's `ReadPressure()`, the sample step; `sensor` is what
`sensor_->getPressure(ADC_4096)` returns. -/
def ReadPressure (m : PressureSensorModule) (sensor : FloatBits) : PressureSensorModule :=
  let m := { m with pressure_ := m.pressure_.setFloat 0 sensor }
  let m := { m with pressure_ := m.pressure_.setFloat 1 m.last_reading_ }
  let m := { m with pressure_ := m.pressure_.setFloat 2 m.second_last_reading_ }
  let m := { m with timed_callback_ := none }
  let m :=
    match m.state_ with
    | .MAINTAIN_PRESSURE =>
      if floatLt (m.pressure_.getFloat 0) m.hold_pressure_mbar_min_ then
        let m := OpenPressureValve m
        let m := { m with state_ := .INCREASE_PRESSURE }
        let m := { m with second_last_reading_ := 0 }
        { m with last_reading_ := 0 }
      else
        ClosePressureValve m
    | .INCREASE_PRESSURE =>
      if floatLt m.hold_pressure_mbar_max_ (m.pressure_.getFloat 0) then
        let m := ClosePressureValve m
        { m with state_ := .MAINTAIN_PRESSURE }
      else
        m
    | .ERROR =>
      let m := { m with last_reading_ := 0 }
      let m := { m with second_last_reading_ := 0 }
      let m := { m with state_ := .MAINTAIN_PRESSURE }
      -- no `break`: control falls into `default`
      ClosePressureValve m
    | .DEPRESSURIZED =>
      -- `default`
      ClosePressureValve m
  let m := { m with second_last_reading_ := m.last_reading_ }
  { m with last_reading_ := m.pressure_.getFloat 0 }

/-- The source's `Tick()`: the returned message (`none` for `NULL`) and the module after
the call. `now` is the clock and `sensor` the reading the sensor returns if
the call samples it. -/
def Tick (m : PressureSensorModule) (now : Nat) (sensor : FloatBits) :
    Option Message × PressureSensorModule :=
  if m.outgoing_message_ready_ then
    (some m.message_, { m with outgoing_message_ready_ := false })
  else
    let m :=
      match m.timed_callback_ with
      | none =>
        let t : TimedCallback :=
          { delay_ms := if m.state_ = State.ERROR then 2000 else 300, start_ms := now }
        { m with timed_callback_ := some t }
      | some _ => m
    -- `timed_callback_->Update()`
    match m.timed_callback_ with
    | some t => if t.elapsed now then (none, ReadPressure m sensor) else (none, m)
    | none => (none, m)

/-- The source's `AcceptMessage(message)`: whether the message was consumed and the module
after the call; `none` where the call reads past the end of the command. -/
def AcceptMessage (m : PressureSensorModule) (message : Message) :
    Option (Bool × PressureSensorModule) := do
  let command := message.command
  if (← strncmp command HOLD_PRESSURE HOLD_PRESSURE_LENGTH) = 0 then
    let command := message.command.drop HOLD_PRESSURE_LENGTH
    if (← command[8]?) = 1 then
      let min ← loadFloat? command 0
      let max ← loadFloat? command 4
      let m := { m with hold_pressure_mbar_min_ := min }
      let m := { m with hold_pressure_mbar_max_ := max }
      let m := { m with pressure_valve_pin_ := (← command[9]?) }
      let m := { m with state_ := .MAINTAIN_PRESSURE }
      return (true, m)
    else
      let m := { m with state_ := .DEPRESSURIZED }
      let m := ClosePressureValve m
      return (true, m)
  else if (← strncmp command GET_PRESSURE GET_PRESSURE_LENGTH) = 0 then
    let m :=
      { m with pressure_ := m.pressure_.setByte ⟨kPressureSize - 1, by decide⟩ m.state_.code }
    let m := { m with message_ := m.message_.Reset kOutgoingAddress kPressureSize m.pressure_.1 }
    let m := { m with outgoing_message_ready_ := true }
    return (true, m)
  else
    return (false, m)

/-! ## Runs of the module -/

/-- One call on the module, with what the environment supplies to it: a
`Tick` (the clock and the reading the sensor would return), a sample step
(`ReadPressure`, with the reading) or an `AcceptMessage`. -/
inductive Op where
  | tick (now : Nat) (sensor : FloatBits)
  | sample (sensor : FloatBits)
  | accept (message : Message)
deriving DecidableEq

/-- The module after one call; `none` where `AcceptMessage` is undefined. -/
def Op.apply (m : PressureSensorModule) : Op → Option PressureSensorModule
  | .tick now sensor => some (Tick m now sensor).2
  | .sample sensor => some (ReadPressure m sensor)
  | .accept message => (AcceptMessage m message).map fun p => p.2

/-- The module after a sequence of calls. -/
def run (m : PressureSensorModule) : List Op → Option PressureSensorModule
  | [] => some m
  | op :: ops => (op.apply m).bind fun m' => run m' ops

/-- Whether `Tick` at time `now` runs the sample step: nothing is pending and
the timer (the one it has, or the one `Tick` creates) has elapsed. -/
def tickSamples (m : PressureSensorModule) (now : Nat) : Bool :=
  !m.outgoing_message_ready_ &&
    match m.timed_callback_ with
    | none =>
      TimedCallback.elapsed
        { delay_ms := if m.state_ = State.ERROR then 2000 else 300, start_ms := now } now
    | some t => t.elapsed now

/-- The reading a call samples, when it runs a sample step. -/
def Op.reading? (m : PressureSensorModule) : Op → Option FloatBits
  | .tick now sensor => if tickSamples m now then some sensor else none
  | .sample sensor => some sensor
  | .accept _ => none

/-- Whether a sample step with reading `r` zeroes the trend history
(`last_reading_ = 0.0f; second_last_reading_ = 0.0f;`): it does in
MAINTAIN_PRESSURE when the reading is below the band, and in ERROR. -/
def resetsHistory (m : PressureSensorModule) (r : FloatBits) : Bool :=
  match m.state_ with
  | .MAINTAIN_PRESSURE => floatLt r m.hold_pressure_mbar_min_
  | .ERROR => true
  | _ => false

/-- The sample steps of a run, newest first, in front of `log`: each with its
reading and whether it zeroed the trend history. -/
def sampleLog :
    PressureSensorModule → List Op → List (FloatBits × Bool) → List (FloatBits × Bool)
  | _, [], log => log
  | m, op :: ops, log =>
    match op.apply m with
    | none => log
    | some m' =>
      match op.reading? m with
      | some r => sampleLog m' ops ((r, resetsHistory m r) :: log)
      | none => sampleLog m' ops log

/-- A peer's decoder of the GET reply, after the spec: a reply of 13 bytes
holds three floats at offsets 0, 4 and 8 and the state code at offset 12. -/
def decodeReply (reply : List Byte) : Option (FloatBits × FloatBits × FloatBits × Byte) :=
  if reply.length = 13 then do
    let reading0 ← loadFloat? reply 0
    let reading1 ← loadFloat? reply 4
    let reading2 ← loadFloat? reply 8
    let state ← reply[12]?
    return (reading0, reading1, reading2, state)
  else
    none

/-- What the module remembers of the sample steps of a log (newest first):
the readings in the reading buffer and in the trend history. -/
def remembers (m : PressureSensorModule) : List (FloatBits × Bool) → Prop
  | [] => True
  | [(c, _)] => m.pressure_.getFloat 0 = c ∧ m.last_reading_ = c
  | (c, rc) :: (b, rb) :: rest =>
    m.pressure_.getFloat 0 = c ∧ m.last_reading_ = c ∧ m.pressure_.getFloat 1 = b ∧
      m.second_last_reading_ = (if rc then 0 else b) ∧
      match rest with
      | [] => True
      | (a, _) :: _ => m.pressure_.getFloat 2 = if rb then 0 else a

/-- The message a module holds for delivery, when one is pending. -/
def pending? (m : PressureSensorModule) : Option Message :=
  if m.outgoing_message_ready_ then some m.message_ else none

/-- The message a call puts into the outbound slot, when it puts one. `Tick`
leaves a message pending only when its sample step wrote one. `ReadPressure`
and `AcceptMessage` never read the pending flag: they are run with the flag
cleared, and the flag then tells whether they wrote. -/
def written (m : PressureSensorModule) : Op → Option Message
  | .tick now sensor => pending? (Tick m now sensor).2
  | .sample sensor => pending? (ReadPressure { m with outgoing_message_ready_ := false } sensor)
  | .accept message =>
    (AcceptMessage { m with outgoing_message_ready_ := false } message).bind fun p =>
      pending? p.2

/-- The messages the calls of a run put into the outbound slot, newest first. -/
def writtenLog : PressureSensorModule → List Op → List Message
  | _, [] => []
  | m, op :: ops =>
    match op.apply m with
    | none => []
    | some m' => writtenLog m' ops ++ (written m op).toList

/-- A reader of valve commands, after the spec: a command of 8 bytes for the
local address that starts with the 6-byte tag holds a pin and a level; the
level is returned. -/
def valveLevel? (msg : Message) : Option Byte :=
  if msg.address = kLocalAddress ∧ msg.command.length = kSetIoSize ∧
      msg.command.take 6 = kSetIoTag then
    msg.command[7]?
  else
    none

/-- Whether a call is an `AcceptMessage` of a `HOLDP` command whose enable
byte is 1. -/
def Op.isHoldEnable : Op → Bool
  | .accept message =>
    decide (HOLD_PRESSURE <+: message.command) &&
      decide (message.command[HOLD_PRESSURE_LENGTH + 8]? = some 1)
  | _ => false

/-- Whether a call is a `Tick`, a sample step, or an `AcceptMessage` of a
`GETP` command or of a `HOLDP` command whose enable byte is not 1. -/
def Op.isNoHoldEnable : Op → Bool
  | .tick _ _ => true
  | .sample _ => true
  | .accept message =>
    decide (GET_PRESSURE <+: message.command) ||
      (decide (HOLD_PRESSURE <+: message.command) &&
        match message.command[HOLD_PRESSURE_LENGTH + 8]? with
        | some enable => decide (enable ≠ 1)
        | none => false)

/-! ## Values of the scenarios -/

/-- The float 45.0. -/
def f45 : FloatBits := 0x42340000

/-- The float 50.0. -/
def f50 : FloatBits := 0x42480000

/-- The float 55.0. -/
def f55 : FloatBits := 0x425C0000

/-- The float 58.0. -/
def f58 : FloatBits := 0x42680000

/-- The float 60.0. -/
def f60 : FloatBits := 0x42700000

/-- The float 62.0. -/
def f62 : FloatBits := 0x42780000

/-- Some content of memory before the constructor runs. -/
def mem0 : PressureSensorModule :=
  { message_ := { address := 7, command := [1, 2, 3] }
    timed_callback_ := some { delay_ms := 5, start_ms := 6 }
    pressure_ := ⟨[9, 9, 9, 9, 9, 9, 9, 9, 9, 9, 9, 9, 9], rfl⟩
    state_ := .ERROR
    hold_pressure_mbar_min_ := 11
    hold_pressure_mbar_max_ := 12
    pressure_valve_pin_ := 13
    last_reading_ := 14
    second_last_reading_ := 15
    outgoing_message_ready_ := true }

/-- The message `HOLDP` with a band, an enable byte and a pin. -/
def holdMessage (min max : FloatBits) (enable pin : Byte) : Message :=
  { address := 1, command := HOLD_PRESSURE ++ floatBytes min ++ floatBytes max ++ [enable, pin] }

/-- The message `GETP`. -/
def getMessage : Message :=
  { address := 1, command := GET_PRESSURE }

/-- The module of a scenario: the constructed module after a sequence of calls. -/
def scenario (ops : List Op) : PressureSensorModule :=
  (run (construct mem0) ops).getD mem0

/-! ## Lemmas on the buffer, the comparisons and `strncmp` -/

/-- Joining the four bytes of a float gives the float back. -/
theorem bytesFloat_floatBytes (x : FloatBits) :
    bytesFloat (byteOf x.val) (byteOf (x.val / 256)) (byteOf (x.val / 65536))
      (byteOf (x.val / 16777216)) = x := by
  apply Fin.ext
  have hx := x.isLt
  simp only [bytesFloat, byteOf]
  omega

/-- A pressure buffer is thirteen bytes. -/
theorem PressureBuf.exists_bytes (buf : PressureBuf) :
    ∃ b0 b1 b2 b3 b4 b5 b6 b7 b8 b9 b10 b11 b12 : Byte,
      buf = ⟨[b0, b1, b2, b3, b4, b5, b6, b7, b8, b9, b10, b11, b12], rfl⟩ := by
  obtain ⟨l, hl⟩ := buf
  match l, hl with
  | [b0, b1, b2, b3, b4, b5, b6, b7, b8, b9, b10, b11, b12], _ =>
    exact ⟨b0, b1, b2, b3, b4, b5, b6, b7, b8, b9, b10, b11, b12, rfl⟩

/-- A float read where it was stored is the float stored. -/
@[simp]
theorem PressureBuf.getFloat_setFloat_same (buf : PressureBuf) (i : Fin 3) (x : FloatBits) :
    (buf.setFloat i x).getFloat i = x := by
  obtain ⟨b0, b1, b2, b3, b4, b5, b6, b7, b8, b9, b10, b11, b12, rfl⟩ := buf.exists_bytes
  have hx := bytesFloat_floatBytes x
  fin_cases i <;> exact hx

/-- Storing a float leaves the other two floats of the buffer as they were. -/
theorem PressureBuf.getFloat_setFloat_ne (buf : PressureBuf) (i j : Fin 3) (x : FloatBits)
    (hij : i ≠ j) : (buf.setFloat i x).getFloat j = buf.getFloat j := by
  obtain ⟨b0, b1, b2, b3, b4, b5, b6, b7, b8, b9, b10, b11, b12, rfl⟩ := buf.exists_bytes
  fin_cases i <;> fin_cases j <;>
    first
    | exact absurd rfl hij
    | rfl

/-- Storing the state byte leaves the three floats of the buffer as they were. -/
@[simp]
theorem PressureBuf.getFloat_setByte_last (buf : PressureBuf) (j : Fin 3) (b : Byte) :
    (buf.setByte ⟨kPressureSize - 1, by decide⟩ b).getFloat j = buf.getFloat j := by
  obtain ⟨b0, b1, b2, b3, b4, b5, b6, b7, b8, b9, b10, b11, b12, rfl⟩ := buf.exists_bytes
  fin_cases j <;> rfl

/-- The reading a sample step compares is the one it stored. -/
@[simp]
theorem getFloat_sampled (buf : PressureBuf) (x y z : FloatBits) :
    (((buf.setFloat 0 x).setFloat 1 y).setFloat 2 z).getFloat 0 = x := by
  rw [PressureBuf.getFloat_setFloat_ne _ 2 0 _ (by decide),
    PressureBuf.getFloat_setFloat_ne _ 1 0 _ (by decide), PressureBuf.getFloat_setFloat_same]

/-- The second float a sample step stores. -/
@[simp]
theorem getFloat_sampled_one (buf : PressureBuf) (x y z : FloatBits) :
    (((buf.setFloat 0 x).setFloat 1 y).setFloat 2 z).getFloat 1 = y := by
  rw [PressureBuf.getFloat_setFloat_ne _ 2 1 _ (by decide), PressureBuf.getFloat_setFloat_same]

/-- The comparison `<` on floats is asymmetric. -/
theorem floatLt_asymm {a b : FloatBits} (h : floatLt a b = true) : floatLt b a = false := by
  simp only [floatLt, Bool.and_eq_true, Bool.not_eq_true', decide_eq_true_eq] at h
  simp only [floatLt, Bool.and_eq_false_iff, Bool.not_eq_false', decide_eq_false_iff_not]
  right
  omega

/-- When the received bytes differ from a literal without NUL at one of the
first characters received, `strncmp` over the literal's length is defined and
not zero. -/
theorem strncmp_of_ne (s1 s2 : List Byte) (h0 : ∀ b ∈ s2, b ≠ 0)
    (h : ¬ (s1.take s2.length <+: s2)) :
    ∃ d : Int, d ≠ 0 ∧ strncmp s1 s2 s2.length = some d := by
  induction s2 generalizing s1 with
  | nil => exact absurd (by simp) h
  | cons b t ih =>
    cases s1 with
    | nil => exact absurd (by simp) h
    | cons a s =>
      by_cases hab : a = b
      · subst hab
        have ha : a ≠ 0 := h0 a (by simp)
        have ht : ¬ (s.take t.length <+: t) := by
          intro hp
          apply h
          simpa using hp
        obtain ⟨d, hd, hs⟩ := ih s (fun c hc => h0 c (by simp [hc])) ht
        exact ⟨d, hd, by simp [strncmp, ha, hs]⟩
      · refine ⟨(a.val : Int) - (b.val : Int), ?_, by simp [strncmp, hab]⟩
        have : a.val ≠ b.val := fun hv => hab (Fin.ext hv)
        omega

/-- When the received bytes start with a literal without NUL, `strncmp` over
the literal's length is zero. -/
theorem strncmp_of_le (s1 s2 : List Byte) (h0 : ∀ b ∈ s2, b ≠ 0) (h : s2 <+: s1) :
    strncmp s1 s2 s2.length = some 0 := by
  obtain ⟨rest, rfl⟩ := h
  induction s2 with
  | nil => simp [strncmp]
  | cons b t ih =>
    have hb : b ≠ 0 := h0 b (by simp)
    simpa [strncmp, hb] using ih (fun c hc => h0 c (by simp [hc]))

/-- The literal `"HOLDP"` holds no NUL. -/
theorem HOLD_PRESSURE_no_nul : ∀ b ∈ HOLD_PRESSURE, b ≠ 0 := by
  intro b hb
  simp only [HOLD_PRESSURE, List.mem_cons, List.mem_singleton, List.mem_nil_iff, or_false] at hb
  rcases hb with rfl | rfl | rfl | rfl | rfl <;> decide
/-- The literal `"GETP"` holds no NUL. -/
theorem GET_PRESSURE_no_nul : ∀ b ∈ GET_PRESSURE, b ≠ 0 := by
  intro b hb
  simp only [GET_PRESSURE, List.mem_cons, List.mem_singleton, List.mem_nil_iff, or_false] at hb
  rcases hb with rfl | rfl | rfl | rfl <;> decide

/-- A command that starts with `HOLDP` compares equal to it. -/
theorem strncmp_hold {command : List Byte} (h : HOLD_PRESSURE <+: command) :
    strncmp command HOLD_PRESSURE HOLD_PRESSURE_LENGTH = some 0 :=
  strncmp_of_le command HOLD_PRESSURE HOLD_PRESSURE_no_nul h

/-- The source's `AcceptMessage` on a `HOLDP` command whose enable byte is 1. -/
theorem AcceptMessage_hold_enable (m : PressureSensorModule) (message : Message) (pin : Byte)
    (htag : HOLD_PRESSURE <+: message.command)
    (hen : message.command[HOLD_PRESSURE_LENGTH + 8]? = some 1)
    (hpin : message.command[HOLD_PRESSURE_LENGTH + 9]? = some pin) :
    ∃ min max : FloatBits,
      loadFloat? message.command HOLD_PRESSURE_LENGTH = some min ∧
      loadFloat? message.command (HOLD_PRESSURE_LENGTH + 4) = some max ∧
      AcceptMessage m message = some (true,
        { m with
          state_ := .MAINTAIN_PRESSURE
          hold_pressure_mbar_min_ := min
          hold_pressure_mbar_max_ := max
          pressure_valve_pin_ := pin }) := by
  have h0 := strncmp_hold htag
  obtain ⟨rest, hrest⟩ := htag
  obtain ⟨addr, command⟩ := message
  simp only at hrest h0 hen hpin ⊢
  subst hrest
  simp only [HOLD_PRESSURE, HOLD_PRESSURE_LENGTH, List.cons_append, List.nil_append] at hen hpin
  match rest, hen, hpin with
  | a0 :: a1 :: a2 :: a3 :: c0 :: c1 :: c2 :: c3 :: e :: p :: tl, hen, hpin =>
    simp at hen hpin
    subst hen hpin
    refine ⟨bytesFloat a0 a1 a2 a3, bytesFloat c0 c1 c2 c3, ?_, ?_, ?_⟩
    · simp [loadFloat?, HOLD_PRESSURE_LENGTH, HOLD_PRESSURE]
    · simp [loadFloat?, HOLD_PRESSURE_LENGTH, HOLD_PRESSURE]
    · unfold AcceptMessage
      simp only [h0]
      simp [loadFloat?, HOLD_PRESSURE_LENGTH, HOLD_PRESSURE]


/-- What `SetPressureValve` leaves in the outbound slot. -/
theorem SetPressureValve_eq (m : PressureSensorModule) (on_ : Byte) :
    SetPressureValve m on_ =
      { m with
        message_ := { address := kLocalAddress, command := kSetIoTag ++ [m.pressure_valve_pin_, on_] }
        outgoing_message_ready_ := true } := by
  simp [SetPressureValve, Message.Reset, kSetIoTag, kSetIoSize]

/-- The sample step in MAINTAIN_PRESSURE with a reading below the band. -/
theorem ReadPressure_maintain_lt (m : PressureSensorModule) (r : FloatBits)
    (hs : m.state_ = .MAINTAIN_PRESSURE) (hr : floatLt r m.hold_pressure_mbar_min_ = true) :
    ReadPressure m r =
      { m with
        pressure_ := ((m.pressure_.setFloat 0 r).setFloat 1 m.last_reading_).setFloat 2
          m.second_last_reading_
        timed_callback_ := none
        message_ := { address := kLocalAddress, command := kSetIoTag ++ [m.pressure_valve_pin_, 1] }
        outgoing_message_ready_ := true
        state_ := .INCREASE_PRESSURE
        second_last_reading_ := 0
        last_reading_ := r } := by
  simp [ReadPressure, hs, hr, OpenPressureValve, SetPressureValve_eq]

/-- The sample step in MAINTAIN_PRESSURE with a reading not below the band. -/
theorem ReadPressure_maintain_ge (m : PressureSensorModule) (r : FloatBits)
    (hs : m.state_ = .MAINTAIN_PRESSURE) (hr : floatLt r m.hold_pressure_mbar_min_ = false) :
    ReadPressure m r =
      { m with
        pressure_ := ((m.pressure_.setFloat 0 r).setFloat 1 m.last_reading_).setFloat 2
          m.second_last_reading_
        timed_callback_ := none
        message_ := { address := kLocalAddress, command := kSetIoTag ++ [m.pressure_valve_pin_, 0] }
        outgoing_message_ready_ := true
        second_last_reading_ := m.last_reading_
        last_reading_ := r } := by
  simp [ReadPressure, hs, hr, ClosePressureValve, SetPressureValve_eq]

/-- The sample step in INCREASE_PRESSURE with a reading above the band. -/
theorem ReadPressure_increase_gt (m : PressureSensorModule) (r : FloatBits)
    (hs : m.state_ = .INCREASE_PRESSURE) (hr : floatLt m.hold_pressure_mbar_max_ r = true) :
    ReadPressure m r =
      { m with
        pressure_ := ((m.pressure_.setFloat 0 r).setFloat 1 m.last_reading_).setFloat 2
          m.second_last_reading_
        timed_callback_ := none
        message_ := { address := kLocalAddress, command := kSetIoTag ++ [m.pressure_valve_pin_, 0] }
        outgoing_message_ready_ := true
        state_ := .MAINTAIN_PRESSURE
        second_last_reading_ := m.last_reading_
        last_reading_ := r } := by
  simp [ReadPressure, hs, hr, ClosePressureValve, SetPressureValve_eq]

/-- The sample step in INCREASE_PRESSURE with a reading not above the band. -/
theorem ReadPressure_increase_le (m : PressureSensorModule) (r : FloatBits)
    (hs : m.state_ = .INCREASE_PRESSURE) (hr : floatLt m.hold_pressure_mbar_max_ r = false) :
    ReadPressure m r =
      { m with
        pressure_ := ((m.pressure_.setFloat 0 r).setFloat 1 m.last_reading_).setFloat 2
          m.second_last_reading_
        timed_callback_ := none
        second_last_reading_ := m.last_reading_
        last_reading_ := r } := by
  simp [ReadPressure, hs, hr]

/-- The sample step in ERROR. -/
theorem ReadPressure_error (m : PressureSensorModule) (r : FloatBits)
    (hs : m.state_ = .ERROR) :
    ReadPressure m r =
      { m with
        pressure_ := ((m.pressure_.setFloat 0 r).setFloat 1 m.last_reading_).setFloat 2
          m.second_last_reading_
        timed_callback_ := none
        message_ := { address := kLocalAddress, command := kSetIoTag ++ [m.pressure_valve_pin_, 0] }
        outgoing_message_ready_ := true
        state_ := .MAINTAIN_PRESSURE
        second_last_reading_ := 0
        last_reading_ := r } := by
  simp [ReadPressure, hs, ClosePressureValve, SetPressureValve_eq]

/-- The sample step in DEPRESSURIZED. -/
theorem ReadPressure_depressurized (m : PressureSensorModule) (r : FloatBits)
    (hs : m.state_ = .DEPRESSURIZED) :
    ReadPressure m r =
      { m with
        pressure_ := ((m.pressure_.setFloat 0 r).setFloat 1 m.last_reading_).setFloat 2
          m.second_last_reading_
        timed_callback_ := none
        message_ := { address := kLocalAddress, command := kSetIoTag ++ [m.pressure_valve_pin_, 0] }
        outgoing_message_ready_ := true
        second_last_reading_ := m.last_reading_
        last_reading_ := r } := by
  simp [ReadPressure, hs, ClosePressureValve, SetPressureValve_eq]


/-- The source's `AcceptMessage` on a `HOLDP` command whose enable byte is not 1. -/
theorem AcceptMessage_hold_disable (m : PressureSensorModule) (message : Message) (enable : Byte)
    (htag : HOLD_PRESSURE <+: message.command)
    (hen : message.command[HOLD_PRESSURE_LENGTH + 8]? = some enable) (hne : enable ≠ 1) :
    AcceptMessage m message = some (true,
      { m with
        state_ := .DEPRESSURIZED
        message_ := { address := kLocalAddress, command := kSetIoTag ++ [m.pressure_valve_pin_, 0] }
        outgoing_message_ready_ := true }) := by
  have h0 := strncmp_hold htag
  obtain ⟨rest, hrest⟩ := htag
  obtain ⟨addr, command⟩ := message
  simp only at hrest h0 hen ⊢
  subst hrest
  have h8 : rest[8]? = some enable := by
    simpa [HOLD_PRESSURE, HOLD_PRESSURE_LENGTH] using hen
  unfold AcceptMessage
  simp only [h0]
  simp [HOLD_PRESSURE_LENGTH, HOLD_PRESSURE, h8, hne, ClosePressureValve, SetPressureValve_eq]

/-- A command that starts with `GETP` does not compare equal to `HOLDP`, and
compares equal to `GETP`. -/
theorem strncmp_get {command : List Byte} (h : GET_PRESSURE <+: command) :
    strncmp command HOLD_PRESSURE HOLD_PRESSURE_LENGTH = some (-1) ∧
      strncmp command GET_PRESSURE GET_PRESSURE_LENGTH = some 0 := by
  obtain ⟨rest, rfl⟩ := h
  constructor
  · simp only [strncmp, GET_PRESSURE, HOLD_PRESSURE, HOLD_PRESSURE_LENGTH, List.cons_append]
    rfl
  · exact strncmp_of_le _ GET_PRESSURE GET_PRESSURE_no_nul ⟨rest, rfl⟩

/-- The source's `AcceptMessage` on a `GETP` command. -/
theorem AcceptMessage_get (m : PressureSensorModule) (message : Message)
    (htag : GET_PRESSURE <+: message.command) :
    AcceptMessage m message = some (true,
      { m with
        pressure_ := m.pressure_.setByte ⟨kPressureSize - 1, by decide⟩ m.state_.code
        message_ :=
          { address := kOutgoingAddress
            command := (m.pressure_.setByte ⟨kPressureSize - 1, by decide⟩ m.state_.code).1 }
        outgoing_message_ready_ := true }) := by
  obtain ⟨h1, h2⟩ := strncmp_get htag
  unfold AcceptMessage
  simp only [h1, h2]
  have hlen := (m.pressure_.setByte ⟨kPressureSize - 1, by decide⟩ m.state_.code).2
  simp [Message.Reset, List.take_of_length_le, hlen]

/-- The source's `AcceptMessage` on a command that matches neither tag. -/
theorem AcceptMessage_other (m : PressureSensorModule) (message : Message)
    (hhold : ¬ (message.command.take HOLD_PRESSURE_LENGTH <+: HOLD_PRESSURE))
    (hget : ¬ (message.command.take GET_PRESSURE_LENGTH <+: GET_PRESSURE)) :
    AcceptMessage m message = some (false, m) := by
  obtain ⟨d1, hd1, h1⟩ := strncmp_of_ne _ HOLD_PRESSURE HOLD_PRESSURE_no_nul hhold
  obtain ⟨d2, hd2, h2⟩ := strncmp_of_ne _ GET_PRESSURE GET_PRESSURE_no_nul hget
  have h1' : strncmp message.command HOLD_PRESSURE HOLD_PRESSURE_LENGTH = some d1 := h1
  have h2' : strncmp message.command GET_PRESSURE GET_PRESSURE_LENGTH = some d2 := h2
  unfold AcceptMessage
  simp only [h1', h2']
  simp [hd1, hd2]

/-- The four bytes of the float joined from four bytes are these bytes. -/
theorem floatBytes_bytesFloat (b0 b1 b2 b3 : Byte) :
    floatBytes (bytesFloat b0 b1 b2 b3) = [b0, b1, b2, b3] := by
  have h0 := b0.isLt
  have h1 := b1.isLt
  have h2 := b2.isLt
  have h3 := b3.isLt
  simp only [floatBytes, bytesFloat, byteOf, List.cons.injEq, and_true]
  refine ⟨Fin.ext ?_, Fin.ext ?_, Fin.ext ?_, Fin.ext ?_⟩ <;> simp only <;> omega

/-- The thirteen bytes of a pressure buffer are its three floats and its last byte. -/
theorem PressureBuf.bytes_eq (buf : PressureBuf) :
    buf.1 = floatBytes (buf.getFloat 0) ++ floatBytes (buf.getFloat 1) ++
      floatBytes (buf.getFloat 2) ++ [buf.1.getD 12 0] := by
  obtain ⟨b0, b1, b2, b3, b4, b5, b6, b7, b8, b9, b10, b11, b12, rfl⟩ := buf.exists_bytes
  have e0 := floatBytes_bytesFloat b0 b1 b2 b3
  have e1 := floatBytes_bytesFloat b4 b5 b6 b7
  have e2 := floatBytes_bytesFloat b8 b9 b10 b11
  simp only [PressureBuf.getFloat]
  show _ = floatBytes (bytesFloat b0 b1 b2 b3) ++ floatBytes (bytesFloat b4 b5 b6 b7) ++
    floatBytes (bytesFloat b8 b9 b10 b11) ++ [b12]
  rw [e0, e1, e2]
  rfl

/-- The last byte of a buffer after the state byte is stored. -/
theorem PressureBuf.getD_setByte_last (buf : PressureBuf) (b : Byte) :
    (buf.setByte ⟨kPressureSize - 1, by decide⟩ b).1.getD 12 0 = b := by
  obtain ⟨b0, b1, b2, b3, b4, b5, b6, b7, b8, b9, b10, b11, b12, rfl⟩ := buf.exists_bytes
  rfl

/-- The peer's decoder on a buffer's bytes. -/
theorem decodeReply_bytes (buf : PressureBuf) :
    decodeReply buf.1 =
      some (buf.getFloat 0, buf.getFloat 1, buf.getFloat 2, buf.1.getD 12 0) := by
  obtain ⟨b0, b1, b2, b3, b4, b5, b6, b7, b8, b9, b10, b11, b12, rfl⟩ := buf.exists_bytes
  rfl

/-- Sample steps with readings not above the band keep INCREASE_PRESSURE, the
band and the outbound slot. -/
theorem foldl_ReadPressure_increase (rs : List FloatBits) (m : PressureSensorModule)
    (hs : m.state_ = .INCREASE_PRESSURE)
    (hr : ∀ r ∈ rs, floatLt m.hold_pressure_mbar_max_ r = false) :
    (rs.foldl ReadPressure m).state_ = .INCREASE_PRESSURE ∧
      (rs.foldl ReadPressure m).message_ = m.message_ ∧
      (rs.foldl ReadPressure m).outgoing_message_ready_ = m.outgoing_message_ready_ := by
  induction rs generalizing m with
  | nil => exact ⟨hs, rfl, rfl⟩
  | cons r rs ih =>
    have h1 := ReadPressure_increase_le m r hs (hr r (by simp))
    have hs1 : (ReadPressure m r).state_ = .INCREASE_PRESSURE := by rw [h1]; exact hs
    have hmax : (ReadPressure m r).hold_pressure_mbar_max_ = m.hold_pressure_mbar_max_ := by
      rw [h1]
    have hmsg : (ReadPressure m r).message_ = m.message_ := by rw [h1]
    have hrdy : (ReadPressure m r).outgoing_message_ready_ = m.outgoing_message_ready_ := by
      rw [h1]
    have := ih (ReadPressure m r) hs1 (fun x hx => by rw [hmax]; exact hr x (by simp [hx]))
    simpa [List.foldl, hmsg, hrdy] using this

/-- The third float a sample step stores. -/
@[simp]
theorem getFloat_sampled_two (buf : PressureBuf) (x y z : FloatBits) :
    (((buf.setFloat 0 x).setFloat 1 y).setFloat 2 z).getFloat 2 = z :=
  PressureBuf.getFloat_setFloat_same _ 2 z

/-- The sample step does not read the timer. -/
theorem ReadPressure_timer (m : PressureSensorModule) (t : Option TimedCallback)
    (r : FloatBits) : ReadPressure { m with timed_callback_ := t } r = ReadPressure m r := rfl

/-- The source's `Tick` with a message pending. -/
theorem Tick_pending (m : PressureSensorModule) (now : Nat) (sensor : FloatBits)
    (h : m.outgoing_message_ready_ = true) :
    Tick m now sensor = (some m.message_, { m with outgoing_message_ready_ := false }) := by
  simp [Tick, h]

/-- The source's `Tick` with nothing pending returns no message. -/
theorem Tick_idle_fst (m : PressureSensorModule) (now : Nat) (sensor : FloatBits)
    (h : m.outgoing_message_ready_ = false) : (Tick m now sensor).1 = none := by
  obtain ⟨msg, tc, buf, st, mn, mx, pin, l, sl, rdy⟩ := m
  simp only at h
  subst h
  cases tc with
  | none => simp only [Tick, Bool.false_eq_true, if_false]; split_ifs <;> rfl
  | some t => simp only [Tick, Bool.false_eq_true, if_false]; split_ifs <;> rfl

/-- The source's `Tick` when it samples is the sample step. -/
theorem Tick_samples (m : PressureSensorModule) (now : Nat) (sensor : FloatBits)
    (h : tickSamples m now = true) : (Tick m now sensor).2 = ReadPressure m sensor := by
  obtain ⟨msg, tc, buf, st, mn, mx, pin, l, sl, rdy⟩ := m
  cases rdy with
  | true => simp [tickSamples] at h
  | false =>
    cases tc with
    | none =>
      simp only [tickSamples, Bool.not_false, Bool.true_and] at h
      simp only [Tick, Bool.false_eq_true, if_false, h, if_true]
      rfl
    | some t =>
      simp only [tickSamples, Bool.not_false, Bool.true_and] at h
      simp only [Tick, Bool.false_eq_true, if_false, h, if_true]

/-- The source's `Tick` when it does not sample leaves all but the timer and the pending
flag. -/
theorem Tick_not_samples (m : PressureSensorModule) (now : Nat) (sensor : FloatBits)
    (h : tickSamples m now = false) :
    ∃ (t : Option TimedCallback) (b : Bool),
      (Tick m now sensor).2 = { m with timed_callback_ := t, outgoing_message_ready_ := b } := by
  obtain ⟨msg, tc, buf, st, mn, mx, pin, l, sl, rdy⟩ := m
  cases rdy with
  | true => exact ⟨tc, false, by simp [Tick]⟩
  | false =>
    cases tc with
    | none =>
      simp only [tickSamples, Bool.not_false, Bool.true_and] at h
      exact ⟨some { delay_ms := if st = State.ERROR then 2000 else 300, start_ms := now }, false,
        by simp only [Tick, Bool.false_eq_true, if_false, h]⟩
    | some t =>
      simp only [tickSamples, Bool.not_false, Bool.true_and] at h
      exact ⟨some t, false, by simp only [Tick, Bool.false_eq_true, if_false, h]⟩

/-- The reading buffer after a sample step. -/
theorem ReadPressure_pressure (m : PressureSensorModule) (r : FloatBits) :
    (ReadPressure m r).pressure_ =
      ((m.pressure_.setFloat 0 r).setFloat 1 m.last_reading_).setFloat 2
        m.second_last_reading_ := by
  cases hs : m.state_ with
  | DEPRESSURIZED => rw [ReadPressure_depressurized m r hs]
  | ERROR => rw [ReadPressure_error m r hs]
  | MAINTAIN_PRESSURE =>
    cases hr : floatLt r m.hold_pressure_mbar_min_ with
    | true => rw [ReadPressure_maintain_lt m r hs hr]
    | false => rw [ReadPressure_maintain_ge m r hs hr]
  | INCREASE_PRESSURE =>
    cases hr : floatLt m.hold_pressure_mbar_max_ r with
    | true => rw [ReadPressure_increase_gt m r hs hr]
    | false => rw [ReadPressure_increase_le m r hs hr]

/-- The trend history after a sample step. -/
theorem ReadPressure_history (m : PressureSensorModule) (r : FloatBits) :
    (ReadPressure m r).last_reading_ = r ∧
      (ReadPressure m r).second_last_reading_ =
        if resetsHistory m r then 0 else m.last_reading_ := by
  cases hs : m.state_ with
  | DEPRESSURIZED => rw [ReadPressure_depressurized m r hs]; simp [resetsHistory, hs]
  | ERROR => rw [ReadPressure_error m r hs]; simp [resetsHistory, hs]
  | MAINTAIN_PRESSURE =>
    cases hr : floatLt r m.hold_pressure_mbar_min_ with
    | true => rw [ReadPressure_maintain_lt m r hs hr]; simp [resetsHistory, hs, hr]
    | false => rw [ReadPressure_maintain_ge m r hs hr]; simp [resetsHistory, hs, hr]
  | INCREASE_PRESSURE =>
    cases hr : floatLt m.hold_pressure_mbar_max_ r with
    | true => rw [ReadPressure_increase_gt m r hs hr]; simp [resetsHistory, hs]
    | false => rw [ReadPressure_increase_le m r hs hr]; simp [resetsHistory, hs]

/-- The source's `AcceptMessage` leaves the three floats of the reading buffer and the
trend history. -/
theorem AcceptMessage_history (m : PressureSensorModule) (message : Message)
    (p : Bool × PressureSensorModule) (h : AcceptMessage m message = some p) :
    p.2.last_reading_ = m.last_reading_ ∧ p.2.second_last_reading_ = m.second_last_reading_ ∧
      ∀ i : Fin 3, p.2.pressure_.getFloat i = m.pressure_.getFloat i := by
  unfold AcceptMessage at h
  simp only [Option.bind_eq_bind, Option.bind_eq_some, Option.pure_def] at h
  obtain ⟨d1, -, h⟩ := h
  split_ifs at h
  · simp only [Option.bind_eq_some] at h
    obtain ⟨e, -, h⟩ := h
    split_ifs at h
    · simp only [Option.bind_eq_some] at h
      obtain ⟨mn, -, mx, -, pn, -, h⟩ := h
      simp only [Option.some.injEq] at h
      subst h
      simp
    · simp only [Option.some.injEq] at h
      subst h
      simp [ClosePressureValve, SetPressureValve_eq]
  · simp only [Option.bind_eq_some] at h
    obtain ⟨d2, -, h⟩ := h
    split_ifs at h
    · simp only [Option.some.injEq] at h
      subst h
      simp
    · simp only [Option.some.injEq] at h
      subst h
      simp

/-- What is remembered depends only on the three floats of the reading buffer
and on the trend history. -/
theorem remembers_congr (m m' : PressureSensorModule) (log : List (FloatBits × Bool))
    (hl : m'.last_reading_ = m.last_reading_)
    (hs : m'.second_last_reading_ = m.second_last_reading_)
    (hp : ∀ i : Fin 3, m'.pressure_.getFloat i = m.pressure_.getFloat i)
    (h : remembers m log) : remembers m' log := by
  match log, h with
  | [], _ => trivial
  | [(c, _)], h => exact ⟨(hp 0).trans h.1, hl.trans h.2⟩
  | (c, rc) :: (b, rb) :: [], h =>
    exact ⟨(hp 0).trans h.1, hl.trans h.2.1, (hp 1).trans h.2.2.1, hs.trans h.2.2.2.1, trivial⟩
  | (c, rc) :: (b, rb) :: (a, ra) :: rest, h =>
    exact ⟨(hp 0).trans h.1, hl.trans h.2.1, (hp 1).trans h.2.2.1, hs.trans h.2.2.2.1,
      (hp 2).trans h.2.2.2.2⟩

/-- A sample step puts its reading in front of what is remembered. -/
theorem remembers_sample (m : PressureSensorModule) (r : FloatBits)
    (log : List (FloatBits × Bool)) (h : remembers m log) :
    remembers (ReadPressure m r) ((r, resetsHistory m r) :: log) := by
  obtain ⟨hl, hs⟩ := ReadPressure_history m r
  have hp := ReadPressure_pressure m r
  match log, h with
  | [], _ => exact ⟨by rw [hp]; simp, hl⟩
  | [(c, rc)], h =>
    refine ⟨by rw [hp]; simp, hl, by rw [hp]; simp [h.2], ?_, trivial⟩
    rw [hs, h.2]
  | (c, rc) :: (b, rb) :: rest, h =>
    refine ⟨by rw [hp]; simp, hl, by rw [hp]; simp [h.2.1], ?_, ?_⟩
    · rw [hs, h.2.1]
    · show (ReadPressure m r).pressure_.getFloat 2 = if rc = true then 0 else b
      rw [hp]
      simp [h.2.2.2.1]

/-- A call that samples nothing leaves what is remembered; one that samples
puts its reading in front. -/
theorem remembers_run (ops : List Op) (m m' : PressureSensorModule)
    (log : List (FloatBits × Bool)) (hrun : run m ops = some m') (h : remembers m log) :
    remembers m' (sampleLog m ops log) := by
  induction ops generalizing m log with
  | nil =>
    simp only [run, Option.some.injEq] at hrun
    subst hrun
    exact h
  | cons op ops ih =>
    simp only [run, Option.bind_eq_some] at hrun
    obtain ⟨m1, h1, hrest⟩ := hrun
    simp only [sampleLog, h1]
    cases op with
    | sample r =>
      simp only [Op.apply, Option.some.injEq] at h1
      subst h1
      exact ih _ _ hrest (remembers_sample m r log h)
    | accept message =>
      simp only [Op.apply, Option.map_eq_some'] at h1
      obtain ⟨p, hp, rfl⟩ := h1
      obtain ⟨hl, hs, hb⟩ := AcceptMessage_history m message p hp
      exact ih _ _ hrest (remembers_congr m p.2 log hl hs hb h)
    | tick now sensor =>
      simp only [Op.apply, Option.some.injEq] at h1
      subst h1
      cases hts : tickSamples m now with
      | true =>
        simp only [Op.reading?, hts, if_true]
        rw [Tick_samples m now sensor hts] at hrest ⊢
        exact ih _ _ hrest (remembers_sample m sensor log h)
      | false =>
        simp only [Op.reading?, hts, Bool.false_eq_true, if_false]
        obtain ⟨t, b, ht⟩ := Tick_not_samples m now sensor hts
        refine ih _ _ hrest (remembers_congr m _ log ?_ ?_ ?_ h) <;> rw [ht]
        intro i
        rfl

/-- When `strncmp` over the length of a literal without NUL is zero, the
received bytes start with the literal. -/
theorem prefix_of_strncmp (s1 s2 : List Byte) (h0 : ∀ b ∈ s2, b ≠ 0)
    (h : strncmp s1 s2 s2.length = some 0) : s2 <+: s1 := by
  induction s2 generalizing s1 with
  | nil => exact List.nil_prefix
  | cons b t ih =>
    cases s1 with
    | nil => simp [strncmp] at h
    | cons a s =>
      by_cases hab : a = b
      · subst hab
        have ha : a ≠ 0 := h0 a (by simp)
        have hs : strncmp s t t.length = some 0 := by
          simpa [strncmp, ha] using h
        have := ih s (fun c hc => h0 c (by simp [hc])) hs
        simpa using this
      · exfalso
        have hv : a.val ≠ b.val := fun hv => hab (Fin.ext hv)
        simp only [strncmp, List.length_cons, ne_eq, hab, not_false_eq_true, if_true,
          Option.some.injEq] at h
        omega

/-- The four ways `AcceptMessage` returns; which one is taken depends on the
message only. -/
theorem AcceptMessage_cases (m : PressureSensorModule) (message : Message)
    (p : Bool × PressureSensorModule) (h : AcceptMessage m message = some p) :
    (HOLD_PRESSURE <+: message.command ∧
        message.command[HOLD_PRESSURE_LENGTH + 8]? = some 1 ∧
        ∃ (min max : FloatBits) (pin : Byte), ∀ m2 : PressureSensorModule,
          AcceptMessage m2 message = some (true,
            { m2 with
              state_ := .MAINTAIN_PRESSURE
              hold_pressure_mbar_min_ := min
              hold_pressure_mbar_max_ := max
              pressure_valve_pin_ := pin })) ∨
    (HOLD_PRESSURE <+: message.command ∧
        (∃ enable : Byte, message.command[HOLD_PRESSURE_LENGTH + 8]? = some enable ∧
          enable ≠ 1) ∧
        ∀ m2 : PressureSensorModule,
          AcceptMessage m2 message = some (true,
            { m2 with
              state_ := .DEPRESSURIZED
              message_ :=
                { address := kLocalAddress
                  command := kSetIoTag ++ [m2.pressure_valve_pin_, 0] }
              outgoing_message_ready_ := true })) ∨
    (GET_PRESSURE <+: message.command ∧
        ∀ m2 : PressureSensorModule,
          AcceptMessage m2 message = some (true,
            { m2 with
              pressure_ := m2.pressure_.setByte ⟨kPressureSize - 1, by decide⟩ m2.state_.code
              message_ :=
                { address := kOutgoingAddress
                  command :=
                    (m2.pressure_.setByte ⟨kPressureSize - 1, by decide⟩ m2.state_.code).1 }
              outgoing_message_ready_ := true })) ∨
    (¬ (HOLD_PRESSURE <+: message.command) ∧ ¬ (GET_PRESSURE <+: message.command) ∧
      ∀ m2 : PressureSensorModule, AcceptMessage m2 message = some (false, m2)) := by
  unfold AcceptMessage at h
  simp only [Option.bind_eq_bind, Option.bind_eq_some, Option.pure_def] at h
  obtain ⟨d1, hd1, h⟩ := h
  split_ifs at h with hz1
  · subst hz1
    have hpre : HOLD_PRESSURE <+: message.command :=
      prefix_of_strncmp _ HOLD_PRESSURE HOLD_PRESSURE_no_nul hd1
    simp only [Option.bind_eq_some] at h
    obtain ⟨e, he, h⟩ := h
    have he' : message.command[HOLD_PRESSURE_LENGTH + 8]? = some e := by
      rw [← he, List.getElem?_drop]
    split_ifs at h with he1
    · subst he1
      simp only [Option.bind_eq_some] at h
      obtain ⟨mn, -, mx, -, pn, hpn, -⟩ := h
      have hpn' : message.command[HOLD_PRESSURE_LENGTH + 9]? = some pn := by
        rw [← hpn, List.getElem?_drop]
      obtain ⟨min, max, hmin, hmax, -⟩ := AcceptMessage_hold_enable m message pn hpre he' hpn'
      refine Or.inl ⟨hpre, he', min, max, pn, fun m2 => ?_⟩
      obtain ⟨min2, max2, hmin2, hmax2, hacc⟩ :=
        AcceptMessage_hold_enable m2 message pn hpre he' hpn'
      rw [hmin] at hmin2
      rw [hmax] at hmax2
      rw [Option.some.inj hmin2, Option.some.inj hmax2]
      exact hacc
    · exact Or.inr (Or.inl ⟨hpre, ⟨e, he', he1⟩,
        fun m2 => AcceptMessage_hold_disable m2 message e hpre he' he1⟩)
  · have hnh : ¬ (HOLD_PRESSURE <+: message.command) := by
      intro hp
      have := strncmp_hold hp
      rw [hd1] at this
      exact hz1 (Option.some.inj this)
    simp only [Option.bind_eq_some] at h
    obtain ⟨d2, hd2, h⟩ := h
    split_ifs at h with hz2
    · subst hz2
      have hpre : GET_PRESSURE <+: message.command :=
        prefix_of_strncmp _ GET_PRESSURE GET_PRESSURE_no_nul hd2
      exact Or.inr (Or.inr (Or.inl ⟨hpre, fun m2 => AcceptMessage_get m2 message hpre⟩))
    · have hng : ¬ (GET_PRESSURE <+: message.command) := by
        intro hp
        have := (strncmp_get hp).2
        rw [hd2] at this
        exact hz2 (Option.some.inj this)
      refine Or.inr (Or.inr (Or.inr ⟨hnh, hng, fun m2 => ?_⟩))
      unfold AcceptMessage
      simp only [hd1, hd2]
      simp [hz1, hz2]

/-- The state after a sample step. -/
theorem ReadPressure_state (m : PressureSensorModule) (r : FloatBits) :
    (ReadPressure m r).state_ =
      match m.state_ with
      | .MAINTAIN_PRESSURE =>
        if floatLt r m.hold_pressure_mbar_min_ then .INCREASE_PRESSURE else .MAINTAIN_PRESSURE
      | .INCREASE_PRESSURE =>
        if floatLt m.hold_pressure_mbar_max_ r then .MAINTAIN_PRESSURE else .INCREASE_PRESSURE
      | .ERROR => .MAINTAIN_PRESSURE
      | .DEPRESSURIZED => .DEPRESSURIZED := by
  cases hs : m.state_ with
  | DEPRESSURIZED => rw [ReadPressure_depressurized m r hs]; simp [hs]
  | ERROR => rw [ReadPressure_error m r hs]
  | MAINTAIN_PRESSURE =>
    cases hr : floatLt r m.hold_pressure_mbar_min_ with
    | true => rw [ReadPressure_maintain_lt m r hs hr]; simp
    | false => rw [ReadPressure_maintain_ge m r hs hr]; simp [hs]
  | INCREASE_PRESSURE =>
    cases hr : floatLt m.hold_pressure_mbar_max_ r with
    | true => rw [ReadPressure_increase_gt m r hs hr]; simp
    | false => rw [ReadPressure_increase_le m r hs hr]; simp [hs]

/-- A sample step leaves the band and the pin. -/
theorem ReadPressure_config (m : PressureSensorModule) (r : FloatBits) :
    (ReadPressure m r).hold_pressure_mbar_min_ = m.hold_pressure_mbar_min_ ∧
      (ReadPressure m r).hold_pressure_mbar_max_ = m.hold_pressure_mbar_max_ ∧
      (ReadPressure m r).pressure_valve_pin_ = m.pressure_valve_pin_ := by
  cases hs : m.state_ with
  | DEPRESSURIZED => rw [ReadPressure_depressurized m r hs]; exact ⟨rfl, rfl, rfl⟩
  | ERROR => rw [ReadPressure_error m r hs]; exact ⟨rfl, rfl, rfl⟩
  | MAINTAIN_PRESSURE =>
    cases hr : floatLt r m.hold_pressure_mbar_min_ with
    | true => rw [ReadPressure_maintain_lt m r hs hr]; exact ⟨rfl, rfl, rfl⟩
    | false => rw [ReadPressure_maintain_ge m r hs hr]; exact ⟨rfl, rfl, rfl⟩
  | INCREASE_PRESSURE =>
    cases hr : floatLt m.hold_pressure_mbar_max_ r with
    | true => rw [ReadPressure_increase_gt m r hs hr]; exact ⟨rfl, rfl, rfl⟩
    | false => rw [ReadPressure_increase_le m r hs hr]; exact ⟨rfl, rfl, rfl⟩

/-- The message a sample step puts into the slot. -/
theorem written_sample (m : PressureSensorModule) (r : FloatBits) :
    written m (.sample r) =
      match m.state_ with
      | .MAINTAIN_PRESSURE =>
        if floatLt r m.hold_pressure_mbar_min_ then
          some { address := kLocalAddress, command := kSetIoTag ++ [m.pressure_valve_pin_, 1] }
        else
          some { address := kLocalAddress, command := kSetIoTag ++ [m.pressure_valve_pin_, 0] }
      | .INCREASE_PRESSURE =>
        if floatLt m.hold_pressure_mbar_max_ r then
          some { address := kLocalAddress, command := kSetIoTag ++ [m.pressure_valve_pin_, 0] }
        else
          none
      | _ =>
        some { address := kLocalAddress, command := kSetIoTag ++ [m.pressure_valve_pin_, 0] } := by
  obtain ⟨msg, tc, buf, st, mn, mx, pin, l, sl, rdy⟩ := m
  cases st with
  | DEPRESSURIZED => simp [written, pending?, ReadPressure_depressurized]
  | ERROR => simp [written, pending?, ReadPressure_error]
  | MAINTAIN_PRESSURE =>
    cases hr : floatLt r mn with
    | true => simp [written, pending?, ReadPressure_maintain_lt, hr]
    | false => simp [written, pending?, ReadPressure_maintain_ge, hr]
  | INCREASE_PRESSURE =>
    cases hr : floatLt mx r with
    | true => simp [written, pending?, ReadPressure_increase_gt, hr]
    | false => simp [written, pending?, ReadPressure_increase_le, hr]

/-- The message a `Tick` puts into the slot is the one of its sample step. -/
theorem written_tick (m : PressureSensorModule) (now : Nat) (sensor : FloatBits) :
    written m (.tick now sensor) =
      if tickSamples m now then written m (.sample sensor) else none := by
  obtain ⟨msg, tc, buf, st, mn, mx, pin, l, sl, rdy⟩ := m
  cases rdy with
  | true => simp [written, pending?, Tick, tickSamples]
  | false =>
    cases hts : tickSamples
        { message_ := msg, timed_callback_ := tc, pressure_ := buf, state_ := st,
          hold_pressure_mbar_min_ := mn, hold_pressure_mbar_max_ := mx,
          pressure_valve_pin_ := pin, last_reading_ := l, second_last_reading_ := sl,
          outgoing_message_ready_ := false } now with
    | true =>
      simp only [written, if_true]
      rw [Tick_samples _ now sensor hts]
    | false =>
      obtain ⟨t, b, ht⟩ := Tick_not_samples _ now sensor hts
      simp only [written, Bool.false_eq_true, if_false]
      cases tc with
      | none =>
        simp only [tickSamples, Bool.not_false, Bool.true_and] at hts
        simp [pending?, Tick, hts]
      | some t0 =>
        simp only [tickSamples, Bool.not_false, Bool.true_and] at hts
        simp [pending?, Tick, hts]

/-- The level read from a valve command. -/
theorem valveLevel?_command (pin level : Byte) :
    valveLevel? { address := kLocalAddress, command := kSetIoTag ++ [pin, level] } =
      some level := by
  simp [valveLevel?, kSetIoTag, kSetIoSize]

/-- A message for the reply address is no valve command. -/
theorem valveLevel?_reply (command : List Byte) :
    valveLevel? { address := kOutgoingAddress, command := command } = none := by
  simp [valveLevel?, kOutgoingAddress, kLocalAddress]

/-- The message an `AcceptMessage` puts into the slot: the close command of a
`HOLDP` message whose enable byte is not 1, or the reply to a `GETP` message. -/
theorem written_accept (m : PressureSensorModule) (message msg : Message)
    (h : written m (.accept message) = some msg) :
    (HOLD_PRESSURE <+: message.command ∧
        (∃ enable : Byte, message.command[HOLD_PRESSURE_LENGTH + 8]? = some enable ∧
          enable ≠ 1) ∧
        msg = { address := kLocalAddress, command := kSetIoTag ++ [m.pressure_valve_pin_, 0] }) ∨
    (GET_PRESSURE <+: message.command ∧
        msg =
          { address := kOutgoingAddress
            command := (m.pressure_.setByte ⟨kPressureSize - 1, by decide⟩ m.state_.code).1 }) := by
  simp only [written, Option.bind_eq_some] at h
  obtain ⟨p, hp, hpend⟩ := h
  rcases AcceptMessage_cases _ message p hp with
    ⟨-, -, mn, mx, pn, hall⟩ | ⟨hpre, hen, hall⟩ | ⟨hpre, hall⟩ | ⟨-, -, hall⟩
  · rw [hall] at hp
    rw [← Option.some.inj hp] at hpend
    simp [pending?] at hpend
  · rw [hall] at hp
    rw [← Option.some.inj hp] at hpend
    simp only [pending?, if_true, Option.some.injEq] at hpend
    exact Or.inl ⟨hpre, hen, hpend.symm⟩
  · rw [hall] at hp
    rw [← Option.some.inj hp] at hpend
    simp only [pending?, if_true, Option.some.injEq] at hpend
    exact Or.inr ⟨hpre, hpend.symm⟩
  · rw [hall] at hp
    rw [← Option.some.inj hp] at hpend
    simp [pending?] at hpend

/-- A call that samples is the sample step. -/
theorem apply_of_reading (m : PressureSensorModule) (op : Op) (r : FloatBits)
    (h : op.reading? m = some r) :
    op.apply m = some (ReadPressure m r) ∧ written m op = written m (.sample r) := by
  cases op with
  | sample s =>
    simp only [Op.reading?, Option.some.injEq] at h
    subst h
    exact ⟨rfl, rfl⟩
  | accept message => simp [Op.reading?] at h
  | tick now s =>
    cases hts : tickSamples m now with
    | false => simp [Op.reading?, hts] at h
    | true =>
      simp only [Op.reading?, hts, if_true, Option.some.injEq] at h
      subst h
      refine ⟨?_, ?_⟩
      · simp only [Op.apply, Tick_samples m now s hts]
      · rw [written_tick, hts]
        rfl

/-- A `Tick` that does not sample: the pending flag is cleared and the timer
is the one the module had or a new one. -/
theorem Tick_idle_cases (m : PressureSensorModule) (now : Nat) (sensor : FloatBits)
    (h : tickSamples m now = false) :
    ∃ t : Option TimedCallback,
      (Tick m now sensor).2 = { m with timed_callback_ := t, outgoing_message_ready_ := false } ∧
      (t = m.timed_callback_ ∨
        t = some { delay_ms := if m.state_ = State.ERROR then 2000 else 300, start_ms := now })
      := by
  obtain ⟨msg, tc, buf, st, mn, mx, pin, l, sl, rdy⟩ := m
  cases rdy with
  | true => exact ⟨tc, by simp [Tick], Or.inl rfl⟩
  | false =>
    cases tc with
    | none =>
      simp only [tickSamples, Bool.not_false, Bool.true_and] at h
      exact ⟨some { delay_ms := if st = State.ERROR then 2000 else 300, start_ms := now },
        by simp only [Tick, Bool.false_eq_true, if_false, h], Or.inr rfl⟩
    | some t =>
      simp only [tickSamples, Bool.not_false, Bool.true_and] at h
      exact ⟨some t, by simp only [Tick, Bool.false_eq_true, if_false, h], Or.inl rfl⟩

/-- The sample step drops the timer. -/
theorem ReadPressure_timer_none (m : PressureSensorModule) (r : FloatBits) :
    (ReadPressure m r).timed_callback_ = none := by
  cases hs : m.state_ with
  | DEPRESSURIZED => rw [ReadPressure_depressurized m r hs]
  | ERROR => rw [ReadPressure_error m r hs]
  | MAINTAIN_PRESSURE =>
    cases hr : floatLt r m.hold_pressure_mbar_min_ with
    | true => rw [ReadPressure_maintain_lt m r hs hr]
    | false => rw [ReadPressure_maintain_ge m r hs hr]
  | INCREASE_PRESSURE =>
    cases hr : floatLt m.hold_pressure_mbar_max_ r with
    | true => rw [ReadPressure_increase_gt m r hs hr]
    | false => rw [ReadPressure_increase_le m r hs hr]

/-- The state after a sample step is not ERROR. -/
theorem ReadPressure_state_ne_error (m : PressureSensorModule) (r : FloatBits) :
    (ReadPressure m r).state_ ≠ .ERROR := by
  rw [ReadPressure_state]
  cases m.state_ <;> simp only <;> first | decide | (split_ifs <;> decide)

/-- A reading below the lower end of a band is not above its upper end. -/
theorem floatLt_of_band {r min max : FloatBits} (hb : floatLe min max = true)
    (h : floatLt r min = true) : floatLt max r = false := by
  simp only [floatLe, floatLt, Bool.and_eq_true, Bool.not_eq_true', decide_eq_true_eq] at hb h
  simp only [floatLt, Bool.and_eq_false_iff, Bool.not_eq_false', decide_eq_false_iff_not]
  right
  omega

/-- A reading above the upper end of a band is not below its lower end. -/
theorem floatLt_of_band_above {r min max : FloatBits} (hb : floatLe min max = true)
    (h : floatLt max r = true) : floatLt r min = false := by
  simp only [floatLe, floatLt, Bool.and_eq_true, Bool.not_eq_true', decide_eq_true_eq] at hb h
  simp only [floatLt, Bool.and_eq_false_iff, Bool.not_eq_false', decide_eq_false_iff_not]
  right
  omega

/-- A message put into the slot is put there by a sample step or by an
`AcceptMessage`. -/
theorem written_cases (m : PressureSensorModule) (op : Op) (msg : Message)
    (h : written m op = some msg) :
    (∃ r : FloatBits, op.reading? m = some r ∧ written m (.sample r) = some msg) ∨
      ∃ message : Message, op = .accept message := by
  cases op with
  | sample s => exact Or.inl ⟨s, rfl, h⟩
  | accept message => exact Or.inr ⟨message, rfl⟩
  | tick now s =>
    rw [written_tick] at h
    cases hts : tickSamples m now with
    | false => simp [hts] at h
    | true =>
      simp only [hts, if_true] at h
      exact Or.inl ⟨s, by simp [Op.reading?, hts], h⟩

/-- The message of a sample step is the open command, in MAINTAIN_PRESSURE
with a reading below the band, or the close command. -/
theorem written_sample_cases (m : PressureSensorModule) (r : FloatBits) (msg : Message)
    (h : written m (.sample r) = some msg) :
    (m.state_ = .MAINTAIN_PRESSURE ∧ floatLt r m.hold_pressure_mbar_min_ = true ∧
        msg = { address := kLocalAddress, command := kSetIoTag ++ [m.pressure_valve_pin_, 1] }) ∨
    (msg = { address := kLocalAddress, command := kSetIoTag ++ [m.pressure_valve_pin_, 0] } ∧
      (m.state_ = .MAINTAIN_PRESSURE → floatLt r m.hold_pressure_mbar_min_ = false) ∧
      (m.state_ = .INCREASE_PRESSURE → floatLt m.hold_pressure_mbar_max_ r = true)) := by
  rw [written_sample] at h
  cases hs : m.state_ with
  | DEPRESSURIZED =>
    simp only [hs, Option.some.injEq] at h
    exact Or.inr ⟨h.symm, by simp, by simp⟩
  | ERROR =>
    simp only [hs, Option.some.injEq] at h
    exact Or.inr ⟨h.symm, by simp, by simp⟩
  | MAINTAIN_PRESSURE =>
    cases hr : floatLt r m.hold_pressure_mbar_min_ with
    | true =>
      simp only [hs, hr, if_true, Option.some.injEq] at h
      exact Or.inl ⟨rfl, rfl, h.symm⟩
    | false =>
      simp only [hs, hr, Bool.false_eq_true, if_false, Option.some.injEq] at h
      exact Or.inr ⟨h.symm, by simp, by simp⟩
  | INCREASE_PRESSURE =>
    cases hr : floatLt m.hold_pressure_mbar_max_ r with
    | true =>
      simp only [hs, hr, if_true, Option.some.injEq] at h
      exact Or.inr ⟨h.symm, by simp, by simp⟩
    | false => simp [hs, hr] at h

/-- A property every call preserves holds after a run. -/
theorem run_induction (P : PressureSensorModule → Prop)
    (hstep : ∀ (m m' : PressureSensorModule) (op : Op), P m → op.apply m = some m' → P m')
    (ops : List Op) (m m' : PressureSensorModule) (h0 : P m) (hrun : run m ops = some m') :
    P m' := by
  induction ops generalizing m with
  | nil =>
    simp only [run, Option.some.injEq] at hrun
    exact hrun ▸ h0
  | cons op ops ih =>
    simp only [run, Option.bind_eq_some] at hrun
    obtain ⟨m1, h1, hrest⟩ := hrun
    exact ih m1 (hstep m m1 op h0 h1) hrest

/-- The ways a call changes the module: a sample step, a `Tick` that does not
sample, or an `AcceptMessage`. -/
theorem apply_cases (m m' : PressureSensorModule) (op : Op) (h : op.apply m = some m') :
    (∃ r : FloatBits, op.reading? m = some r ∧ m' = ReadPressure m r) ∨
    (∃ (now : Nat) (sensor : FloatBits) (t : Option TimedCallback),
      op = .tick now sensor ∧
      m' = { m with timed_callback_ := t, outgoing_message_ready_ := false } ∧
      (t = m.timed_callback_ ∨
        t = some { delay_ms := if m.state_ = State.ERROR then 2000 else 300, start_ms := now })) ∨
    (∃ (message : Message) (b : Bool), op = .accept message ∧
      AcceptMessage m message = some (b, m')) := by
  cases op with
  | sample s =>
    simp only [Op.apply, Option.some.injEq] at h
    exact Or.inl ⟨s, rfl, h.symm⟩
  | accept message =>
    simp only [Op.apply, Option.map_eq_some'] at h
    obtain ⟨p, hp, rfl⟩ := h
    exact Or.inr (Or.inr ⟨message, p.1, rfl, hp⟩)
  | tick now s =>
    simp only [Op.apply, Option.some.injEq] at h
    cases hts : tickSamples m now with
    | true =>
      rw [Tick_samples m now s hts] at h
      exact Or.inl ⟨s, by simp [Op.reading?, hts], h.symm⟩
    | false =>
      obtain ⟨t, ht, hcase⟩ := Tick_idle_cases m now s hts
      rw [ht] at h
      exact Or.inr (Or.inl ⟨now, s, t, rfl, h.symm, hcase⟩)

/-- A call keeps the state out of ERROR and the delay of the timer at 300 ms. -/
theorem apply_no_error (m m' : PressureSensorModule) (op : Op)
    (h0 : m.state_ ≠ .ERROR ∧ ∀ t : TimedCallback, m.timed_callback_ = some t → t.delay_ms = 300)
    (h : op.apply m = some m') :
    m'.state_ ≠ .ERROR ∧ ∀ t : TimedCallback, m'.timed_callback_ = some t → t.delay_ms = 300 := by
  obtain ⟨hs, ht⟩ := h0
  rcases apply_cases m m' op h with ⟨r, -, rfl⟩ | ⟨now, s, t, -, rfl, hcase⟩ |
    ⟨message, b, rfl, hacc⟩
  · refine ⟨ReadPressure_state_ne_error m r, fun t h => ?_⟩
    rw [ReadPressure_timer_none] at h
    exact absurd h (by simp)
  · refine ⟨hs, fun t0 h => ?_⟩
    simp only at h
    rcases hcase with rfl | rfl
    · exact ht t0 h
    · simp only [Option.some.injEq] at h
      subst h
      simp [hs]
  · rcases AcceptMessage_cases m message (b, m') hacc with
      ⟨-, -, mn, mx, pn, hall⟩ | ⟨-, -, hall⟩ | ⟨-, hall⟩ | ⟨-, -, hall⟩
    all_goals
      rw [hall] at hacc
      obtain ⟨-, rfl⟩ := Prod.mk.inj (Option.some.inj hacc)
      first
        | exact ⟨hs, ht⟩
        | exact ⟨fun h => State.noConfusion h, ht⟩

/-- A valve command with level 1 is put into the slot only by a sample step in
MAINTAIN_PRESSURE with a reading below the band. -/
theorem written_open (m : PressureSensorModule) (op : Op) (msg : Message)
    (hw : written m op = some msg) (hl : valveLevel? msg = some 1) :
    ∃ r : FloatBits, op.reading? m = some r ∧
      m.state_ = .MAINTAIN_PRESSURE ∧
      floatLt r m.hold_pressure_mbar_min_ = true ∧
      op.apply m = some (ReadPressure m r) ∧
      (ReadPressure m r).state_ = .INCREASE_PRESSURE := by
  rcases written_cases m op msg hw with ⟨r, hr, hws⟩ | ⟨message, rfl⟩
  · rcases written_sample_cases m r msg hws with ⟨hs, hlt, -⟩ | ⟨rfl, -, -⟩
    · refine ⟨r, hr, hs, hlt, (apply_of_reading m op r hr).1, ?_⟩
      rw [ReadPressure_maintain_lt m r hs hlt]
    · rw [valveLevel?_command] at hl
      exact absurd (Option.some.inj hl) (by decide)
  · rcases written_accept m message msg hw with ⟨-, -, rfl⟩ | ⟨-, rfl⟩
    · rw [valveLevel?_command] at hl
      exact absurd (Option.some.inj hl) (by decide)
    · rw [valveLevel?_reply] at hl
      exact absurd hl (by simp)

/-- The log of a run that starts with a call. -/
theorem writtenLog_cons (m m1 : PressureSensorModule) (op : Op) (ops : List Op)
    (h : op.apply m = some m1) :
    writtenLog m (op :: ops) = writtenLog m1 ops ++ (written m op).toList := by
  simp only [writtenLog, h]

/-- The message an `AcceptMessage` of a `HOLDP` message whose enable byte is
not 1 puts into the slot. -/
theorem written_hold_disable (m : PressureSensorModule) (message : Message) (enable : Byte)
    (htag : HOLD_PRESSURE <+: message.command)
    (hen : message.command[HOLD_PRESSURE_LENGTH + 8]? = some enable) (hne : enable ≠ 1) :
    written m (.accept message) =
      some { address := kLocalAddress, command := kSetIoTag ++ [m.pressure_valve_pin_, 0] } := by
  simp [written, AcceptMessage_hold_disable _ message enable htag hen hne, pending?]

/-- In INCREASE_PRESSURE a call that is no `HOLDP` message with enable byte 1
and puts no valve command into the slot leaves the state. -/
theorem apply_increase (m m' : PressureSensorModule) (op : Op)
    (hs : m.state_ = .INCREASE_PRESSURE) (happ : op.apply m = some m')
    (hh : op.isHoldEnable = false)
    (hq : ∀ msg : Message, written m op = some msg → valveLevel? msg = none) :
    m'.state_ = .INCREASE_PRESSURE := by
  rcases apply_cases m m' op happ with ⟨r, hr, rfl⟩ | ⟨now, s, t, -, rfl, -⟩ |
    ⟨message, b, rfl, hacc⟩
  · cases hlt : floatLt m.hold_pressure_mbar_max_ r with
    | false => rw [ReadPressure_increase_le m r hs hlt]; exact hs
    | true =>
      have hw : written m op =
          some { address := kLocalAddress, command := kSetIoTag ++ [m.pressure_valve_pin_, 0] }
        := by
        rw [(apply_of_reading m op r hr).2, written_sample, hs]
        simp [hlt]
      have := hq _ hw
      rw [valveLevel?_command] at this
      exact absurd this (by simp)
  · exact hs
  · rcases AcceptMessage_cases m message (b, m') hacc with
      ⟨hpre, hen, -⟩ | ⟨hpre, ⟨e, hen, hne⟩, -⟩ | ⟨-, hall⟩ | ⟨-, -, hall⟩
    · simp [Op.isHoldEnable, hpre, hen] at hh
    · have := hq _ (written_hold_disable m message e hpre hen hne)
      rw [valveLevel?_command] at this
      exact absurd this (by simp)
    · rw [hall] at hacc
      obtain ⟨-, rfl⟩ := Prod.mk.inj (Option.some.inj hacc)
      exact hs
    · rw [hall] at hacc
      obtain ⟨-, rfl⟩ := Prod.mk.inj (Option.some.inj hacc)
      exact hs

/-- In INCREASE_PRESSURE the band and the state stay over a run without a
`HOLDP` message with enable byte 1 and without a valve command. -/
theorem run_increase (ops : List Op) (m m' : PressureSensorModule)
    (hs : m.state_ = .INCREASE_PRESSURE) (hrun : run m ops = some m')
    (hh : ∀ op ∈ ops, op.isHoldEnable = false)
    (hq : ∀ msg ∈ writtenLog m ops, valveLevel? msg = none) :
    m'.state_ = .INCREASE_PRESSURE := by
  induction ops generalizing m with
  | nil =>
    simp only [run, Option.some.injEq] at hrun
    exact hrun ▸ hs
  | cons op ops ih =>
    simp only [run, Option.bind_eq_some] at hrun
    obtain ⟨m1, h1, hrest⟩ := hrun
    rw [writtenLog_cons m m1 op ops h1] at hq
    have hs1 : m1.state_ = .INCREASE_PRESSURE :=
      apply_increase m m1 op hs h1 (hh op (by simp)) (fun msg hw =>
        hq msg (by simp [hw]))
    exact ih m1 hs1 hrest (fun o ho => hh o (by simp [ho]))
      (fun msg hmsg => hq msg (by simp [hmsg]))

/-- In DEPRESSURIZED a `Tick`, a sample step, a `GETP` message and a `HOLDP`
message whose enable byte is not 1 are defined, leave the state and put no
open command into the slot. -/
theorem apply_depressurized (m : PressureSensorModule) (op : Op)
    (hs : m.state_ = .DEPRESSURIZED) (hq : op.isNoHoldEnable = true) :
    ∃ m' : PressureSensorModule, op.apply m = some m' ∧ m'.state_ = .DEPRESSURIZED ∧
      ∀ msg : Message, written m op = some msg → valveLevel? msg ≠ some 1 := by
  have hw : ∀ msg : Message, written m op = some msg → valveLevel? msg ≠ some 1 := by
    intro msg hmsg hl
    obtain ⟨r, -, hm, -⟩ := written_open m op msg hmsg hl
    rw [hs] at hm
    exact absurd hm (by decide)
  cases op with
  | sample r =>
    refine ⟨ReadPressure m r, rfl, ?_, hw⟩
    rw [ReadPressure_depressurized m r hs]
    exact hs
  | tick now s =>
    refine ⟨(Tick m now s).2, rfl, ?_, hw⟩
    cases hts : tickSamples m now with
    | true =>
      rw [Tick_samples m now s hts, ReadPressure_depressurized m s hs]
      exact hs
    | false =>
      obtain ⟨t, ht, -⟩ := Tick_idle_cases m now s hts
      rw [ht]
      exact hs
  | accept message =>
    simp only [Op.isNoHoldEnable, Bool.or_eq_true, Bool.and_eq_true, decide_eq_true_eq] at hq
    rcases hq with hget | ⟨hhold, hen⟩
    · have happ : ∃ m' : PressureSensorModule,
          Op.apply m (.accept message) = some m' ∧ m'.state_ = .DEPRESSURIZED := by
        simp only [Op.apply, AcceptMessage_get m message hget, Option.map_some',
          Option.some.injEq, exists_eq_left']
        exact hs
      obtain ⟨m', h1, h2⟩ := happ
      exact ⟨m', h1, h2, hw⟩
    · cases he : message.command[HOLD_PRESSURE_LENGTH + 8]? with
      | none => simp [he] at hen
      | some e =>
        simp only [he, decide_eq_true_eq] at hen
        have happ : ∃ m' : PressureSensorModule,
            Op.apply m (.accept message) = some m' ∧ m'.state_ = .DEPRESSURIZED := by
          simp only [Op.apply, AcceptMessage_hold_disable m message e hhold he hen,
            Option.map_some', Option.some.injEq, exists_eq_left']
        obtain ⟨m', h1, h2⟩ := happ
        exact ⟨m', h1, h2, hw⟩

/-- In DEPRESSURIZED a run of such calls is defined, ends in DEPRESSURIZED and
puts no open command into the slot. -/
theorem run_depressurized (ops : List Op) (m : PressureSensorModule)
    (hs : m.state_ = .DEPRESSURIZED) (hq : ∀ op ∈ ops, op.isNoHoldEnable = true) :
    ∃ m' : PressureSensorModule, run m ops = some m' ∧ m'.state_ = .DEPRESSURIZED ∧
      ∀ msg ∈ writtenLog m ops, valveLevel? msg ≠ some 1 := by
  induction ops generalizing m with
  | nil => exact ⟨m, rfl, hs, fun msg hmsg => absurd hmsg (by simp [writtenLog])⟩
  | cons op ops ih =>
    obtain ⟨m1, h1, hs1, hw1⟩ := apply_depressurized m op hs (hq op (by simp))
    obtain ⟨m', hrun, hs', hlog⟩ := ih m1 hs1 (fun o ho => hq o (by simp [ho]))
    refine ⟨m', by simp [run, h1, hrun], hs', fun msg hmsg => ?_⟩
    rw [writtenLog_cons m m1 op ops h1] at hmsg
    rcases List.mem_append.mp hmsg with h | h
    · exact hlog msg h
    · exact hw1 msg (by simpa using h)


/-! ## The claims -/

/-- C1: a `HOLDP` message whose enable byte (offset 8 after the tag) is 1 and
which carries its pin byte is consumed, whatever the state before: the state
becomes MAINTAIN_PRESSURE and the band and pin of the payload are stored; the
next sample step with a reading strictly below the stored minimum sets the
state to INCREASE_PRESSURE and enqueues the valve command for the supplied pin
with level 1. -/
theorem hold_enable_then_under_pressure (m : PressureSensorModule) (message : Message)
    (pin : Byte) (htag : HOLD_PRESSURE <+: message.command)
    (hen : message.command[HOLD_PRESSURE_LENGTH + 8]? = some 1)
    (hpin : message.command[HOLD_PRESSURE_LENGTH + 9]? = some pin) :
    ∃ (min max : FloatBits) (m1 : PressureSensorModule),
      loadFloat? message.command HOLD_PRESSURE_LENGTH = some min ∧
      loadFloat? message.command (HOLD_PRESSURE_LENGTH + 4) = some max ∧
      AcceptMessage m message = some (true, m1) ∧
      m1.state_ = .MAINTAIN_PRESSURE ∧
      m1.hold_pressure_mbar_min_ = min ∧
      m1.hold_pressure_mbar_max_ = max ∧
      m1.pressure_valve_pin_ = pin ∧
      ∀ reading : FloatBits, floatLt reading min = true →
        (ReadPressure m1 reading).state_ = .INCREASE_PRESSURE ∧
        (ReadPressure m1 reading).outgoing_message_ready_ = true ∧
        (ReadPressure m1 reading).message_ =
          { address := kLocalAddress, command := kSetIoTag ++ [pin, 1] } := by
  obtain ⟨min, max, hmin, hmax, hacc⟩ := AcceptMessage_hold_enable m message pin htag hen hpin
  refine ⟨min, max, _, hmin, hmax, hacc, rfl, rfl, rfl, rfl, ?_⟩
  intro reading hlt
  rw [ReadPressure_maintain_lt _ reading rfl hlt]
  exact ⟨rfl, rfl, rfl⟩

/-- C1, the scenario: from the constructed module, HOLD(50.0, 60.0, enable=1,
pin=3) and then a sample of 45.0. -/
theorem hold_enable_then_under_pressure_witness :
    ∃ (min max : FloatBits) (m1 : PressureSensorModule),
      loadFloat? (holdMessage f50 f60 1 3).command HOLD_PRESSURE_LENGTH = some min ∧
      loadFloat? (holdMessage f50 f60 1 3).command (HOLD_PRESSURE_LENGTH + 4) = some max ∧
      AcceptMessage (construct mem0) (holdMessage f50 f60 1 3) = some (true, m1) ∧
      m1.state_ = .MAINTAIN_PRESSURE ∧
      m1.hold_pressure_mbar_min_ = min ∧
      m1.hold_pressure_mbar_max_ = max ∧
      m1.pressure_valve_pin_ = 3 ∧
      ∀ reading : FloatBits, floatLt reading min = true →
        (ReadPressure m1 reading).state_ = .INCREASE_PRESSURE ∧
        (ReadPressure m1 reading).outgoing_message_ready_ = true ∧
        (ReadPressure m1 reading).message_ =
          { address := kLocalAddress, command := kSetIoTag ++ [3, 1] } :=
  hold_enable_then_under_pressure (construct mem0) (holdMessage f50 f60 1 3) 3
    (by decide) (by decide) (by decide)

/-- C2: a `HOLDP` message whose enable byte is not 1 is consumed, whatever the
state before: the state becomes DEPRESSURIZED and the valve command with level
0 is enqueued; the band and the pin of the payload are ignored, the stored
band and pin stay and the command carries the stored pin. -/
theorem hold_disable_depressurizes (m : PressureSensorModule) (message : Message)
    (enable : Byte) (htag : HOLD_PRESSURE <+: message.command)
    (hen : message.command[HOLD_PRESSURE_LENGTH + 8]? = some enable) (hne : enable ≠ 1) :
    ∃ m1 : PressureSensorModule,
      AcceptMessage m message = some (true, m1) ∧
      m1.state_ = .DEPRESSURIZED ∧
      m1.outgoing_message_ready_ = true ∧
      m1.message_ =
        { address := kLocalAddress, command := kSetIoTag ++ [m.pressure_valve_pin_, 0] } ∧
      m1.hold_pressure_mbar_min_ = m.hold_pressure_mbar_min_ ∧
      m1.hold_pressure_mbar_max_ = m.hold_pressure_mbar_max_ ∧
      m1.pressure_valve_pin_ = m.pressure_valve_pin_ :=
  ⟨_, AcceptMessage_hold_disable m message enable htag hen hne, rfl, rfl, rfl, rfl, rfl, rfl⟩

/-- C2, an instance: HOLD(50.0, 60.0, enable=0, pin=3) in state ERROR with
stored pin 13. -/
theorem hold_disable_depressurizes_witness :
    ∃ m1 : PressureSensorModule,
      AcceptMessage mem0 (holdMessage f50 f60 0 3) = some (true, m1) ∧
      m1.state_ = .DEPRESSURIZED ∧
      m1.outgoing_message_ready_ = true ∧
      m1.message_ = { address := kLocalAddress, command := kSetIoTag ++ [13, 0] } ∧
      m1.hold_pressure_mbar_min_ = 11 ∧
      m1.hold_pressure_mbar_max_ = 12 ∧
      m1.pressure_valve_pin_ = 13 :=
  hold_disable_depressurizes mem0 (holdMessage f50 f60 0 3) 0 (by decide) (by decide) (by decide)

/-- C3: hysteresis. In INCREASE_PRESSURE, after each of any number of sample
steps whose readings are strictly between `hold_min` and `hold_max` the state
is still INCREASE_PRESSURE and the outbound slot and its pending flag are as
they were: no valve command is enqueued. -/
theorem hysteresis_hold (m : PressureSensorModule) (rs : List FloatBits)
    (hs : m.state_ = .INCREASE_PRESSURE)
    (hr : ∀ r ∈ rs, floatLt m.hold_pressure_mbar_min_ r = true ∧
      floatLt r m.hold_pressure_mbar_max_ = true) :
    ∀ k : Nat,
      ((rs.take k).foldl ReadPressure m).state_ = .INCREASE_PRESSURE ∧
      ((rs.take k).foldl ReadPressure m).message_ = m.message_ ∧
      ((rs.take k).foldl ReadPressure m).outgoing_message_ready_ =
        m.outgoing_message_ready_ := by
  intro k
  apply foldl_ReadPressure_increase _ m hs
  intro r hrk
  exact floatLt_asymm (hr r (List.mem_of_mem_take hrk)).2

/-- C3, an instance: in the scenario of HOLD(50.0, 60.0, enable=1, pin=3) and
a sample of 45.0 the state is INCREASE_PRESSURE with the open command in the
slot; the samples 55.0, 58.0 and 55.0 leave the state and the slot as they
are. -/
theorem hysteresis_hold_witness :
    (scenario [.accept (holdMessage f50 f60 1 3), .sample f45]).state_ = .INCREASE_PRESSURE ∧
    (([f55, f58, f55].take 3).foldl ReadPressure
        (scenario [.accept (holdMessage f50 f60 1 3), .sample f45])).state_ =
      .INCREASE_PRESSURE ∧
    (([f55, f58, f55].take 3).foldl ReadPressure
        (scenario [.accept (holdMessage f50 f60 1 3), .sample f45])).message_ =
      (scenario [.accept (holdMessage f50 f60 1 3), .sample f45]).message_ ∧
    (([f55, f58, f55].take 3).foldl ReadPressure
        (scenario [.accept (holdMessage f50 f60 1 3), .sample f45])).outgoing_message_ready_ =
      (scenario [.accept (holdMessage f50 f60 1 3), .sample f45]).outgoing_message_ready_ :=
  ⟨by decide,
    hysteresis_hold (scenario [.accept (holdMessage f50 f60 1 3), .sample f45]) [f55, f58, f55]
      (by decide) (by
        intro r hr
        simp only [List.mem_cons, List.mem_singleton, List.mem_nil_iff, or_false] at hr
        rcases hr with rfl | rfl | rfl <;> decide) 3⟩

/-- C4: in INCREASE_PRESSURE a sample step with a reading strictly above
`hold_max` sets the state to MAINTAIN_PRESSURE and enqueues the valve command
with level 0 for the stored pin. -/
theorem over_pressure_closes (m : PressureSensorModule) (reading : FloatBits)
    (hs : m.state_ = .INCREASE_PRESSURE)
    (hr : floatLt m.hold_pressure_mbar_max_ reading = true) :
    (ReadPressure m reading).state_ = .MAINTAIN_PRESSURE ∧
      (ReadPressure m reading).outgoing_message_ready_ = true ∧
      (ReadPressure m reading).message_ =
        { address := kLocalAddress, command := kSetIoTag ++ [m.pressure_valve_pin_, 0] } := by
  rw [ReadPressure_increase_gt m reading hs hr]
  exact ⟨rfl, rfl, rfl⟩

/-- C4, the scenario: construct (DEPRESSURIZED), HOLD(50.0, 60.0, enable=1,
pin=3), sample 45.0 (valve open, INCREASE_PRESSURE), sample 62.0 (valve
closed, MAINTAIN_PRESSURE). -/
theorem over_pressure_closes_witness :
    (construct mem0).state_ = .DEPRESSURIZED ∧
    run (construct mem0) [.accept (holdMessage f50 f60 1 3), .sample f45] =
      some (scenario [.accept (holdMessage f50 f60 1 3), .sample f45]) ∧
    (scenario [.accept (holdMessage f50 f60 1 3), .sample f45]).state_ = .INCREASE_PRESSURE ∧
    (scenario [.accept (holdMessage f50 f60 1 3), .sample f45]).message_ =
      { address := kLocalAddress, command := kSetIoTag ++ [3, 1] } ∧
    (ReadPressure (scenario [.accept (holdMessage f50 f60 1 3), .sample f45]) f62).state_ =
      .MAINTAIN_PRESSURE ∧
    (ReadPressure (scenario [.accept (holdMessage f50 f60 1 3), .sample f45])
      f62).outgoing_message_ready_ = true ∧
    (ReadPressure (scenario [.accept (holdMessage f50 f60 1 3), .sample f45]) f62).message_ =
      { address := kLocalAddress, command := kSetIoTag ++ [3, 0] } :=
  ⟨by decide, by decide, by decide, by decide,
    over_pressure_closes (scenario [.accept (holdMessage f50 f60 1 3), .sample f45]) f62
      (by decide) (by decide)⟩

/-- C5, as the code has it: after any sequence of calls with at least three
sample steps, the reply to a `GETP` message holds the two most recent
readings, newest first, in its first two fields; its third field is the third
most recent reading unless the second most recent sample step zeroed the trend
history (it ran in MAINTAIN_PRESSURE with a reading below `hold_min`, or in
ERROR), and is 0.0 then. The last byte is the code of the current state. -/
theorem get_reply_recent_readings (m m' : PressureSensorModule) (ops : List Op)
    (message : Message) (c b a : FloatBits) (rc rb ra : Bool)
    (rest : List (FloatBits × Bool)) (hrun : run m ops = some m')
    (hlog : sampleLog m ops [] = (c, rc) :: (b, rb) :: (a, ra) :: rest)
    (htag : GET_PRESSURE <+: message.command) :
    ∃ m1 : PressureSensorModule,
      AcceptMessage m' message = some (true, m1) ∧
      m1.outgoing_message_ready_ = true ∧
      decodeReply m1.message_.command =
        some (c, b, if rb then 0 else a, m'.state_.code) := by
  have hrem : remembers m' ((c, rc) :: (b, rb) :: (a, ra) :: rest) := by
    rw [← hlog]
    exact remembers_run ops m m' [] hrun trivial
  obtain ⟨h0, -, h1, -, h2⟩ := hrem
  refine ⟨_, AcceptMessage_get m' message htag, rfl, ?_⟩
  show decodeReply (m'.pressure_.setByte ⟨kPressureSize - 1, by decide⟩ m'.state_.code).1 = _
  rw [decodeReply_bytes, PressureBuf.getD_setByte_last]
  simp only [PressureBuf.getFloat_setByte_last]
  rw [h0, h1]
  have h2' : m'.pressure_.getFloat 2 = if rb = true then 0 else a := h2
  rw [h2']

/-- C5, an instance: HOLD(50.0, 60.0, enable=1, pin=3), then the samples 55.0,
58.0 and 45.0 (the last one opens the valve). -/
theorem get_reply_recent_readings_witness :
    run (construct mem0)
      [.accept (holdMessage f50 f60 1 3), .sample f55, .sample f58, .sample f45] =
      some (scenario
        [.accept (holdMessage f50 f60 1 3), .sample f55, .sample f58, .sample f45]) ∧
    ∃ m1 : PressureSensorModule,
      AcceptMessage
        (scenario [.accept (holdMessage f50 f60 1 3), .sample f55, .sample f58, .sample f45])
        getMessage = some (true, m1) ∧
      m1.outgoing_message_ready_ = true ∧
      decodeReply m1.message_.command = some (f45, f58, f55, 1) :=
  ⟨by decide,
    get_reply_recent_readings (construct mem0)
      (scenario [.accept (holdMessage f50 f60 1 3), .sample f55, .sample f58, .sample f45])
      [.accept (holdMessage f50 f60 1 3), .sample f55, .sample f58, .sample f45]
      getMessage f45 f58 f55 true false false [] (by decide) (by decide) (by decide)⟩

/-- C5 fails as stated: after HOLD(50.0, 60.0, enable=1, pin=3) and the samples
55.0, 45.0 (which opens the valve) and 58.0, the three most recent readings
are 58.0, 45.0 and 55.0, and the reply to `GETP` holds 58.0, 45.0 and 0.0. -/
theorem get_reply_recent_readings_counterexample :
    sampleLog (construct mem0)
      [.accept (holdMessage f50 f60 1 3), .sample f55, .sample f45, .sample f58] [] =
      [(f58, false), (f45, true), (f55, false)] ∧
    (run (construct mem0)
      [.accept (holdMessage f50 f60 1 3), .sample f55, .sample f45, .sample f58,
        .accept getMessage]).map (fun m => decodeReply m.message_.command) =
      some (some (f58, f45, 0, 1)) ∧
    (0 : FloatBits) ≠ f55 :=
  ⟨by decide, by decide, by decide⟩

/-- C6: a `GETP` message is consumed in every state. The reply is addressed
to 99 and is exactly 13 bytes: the three 4-byte readings of the reading
buffer, then one byte, the ordinal of the current state: 0 for DEPRESSURIZED,
1 for INCREASE_PRESSURE, 2 for MAINTAIN_PRESSURE, 3 for ERROR. The state, the
band, the pin and the reading history (the stored readings and the three
floats of the buffer) are unchanged. -/
theorem get_reply (m : PressureSensorModule) (message : Message)
    (htag : GET_PRESSURE <+: message.command) :
    ∃ m1 : PressureSensorModule,
      AcceptMessage m message = some (true, m1) ∧
      m1.outgoing_message_ready_ = true ∧
      m1.message_.address = 99 ∧
      m1.message_.command.length = 13 ∧
      m1.message_.command =
        floatBytes (m.pressure_.getFloat 0) ++ floatBytes (m.pressure_.getFloat 1) ++
          floatBytes (m.pressure_.getFloat 2) ++
          [(match m.state_ with
            | .DEPRESSURIZED => 0
            | .INCREASE_PRESSURE => 1
            | .MAINTAIN_PRESSURE => 2
            | .ERROR => 3 : Byte)] ∧
      m1.message_.command[12]? = some m.state_.code ∧
      m1.state_ = m.state_ ∧
      m1.hold_pressure_mbar_min_ = m.hold_pressure_mbar_min_ ∧
      m1.hold_pressure_mbar_max_ = m.hold_pressure_mbar_max_ ∧
      m1.pressure_valve_pin_ = m.pressure_valve_pin_ ∧
      m1.last_reading_ = m.last_reading_ ∧
      m1.second_last_reading_ = m.second_last_reading_ ∧
      (∀ i : Fin 3, m1.pressure_.getFloat i = m.pressure_.getFloat i) := by
  have h :=
    PressureBuf.bytes_eq (m.pressure_.setByte ⟨kPressureSize - 1, by decide⟩ m.state_.code)
  rw [PressureBuf.getD_setByte_last] at h
  simp only [PressureBuf.getFloat_setByte_last] at h
  have hc : m.state_.code =
      (match m.state_ with
        | .DEPRESSURIZED => 0
        | .INCREASE_PRESSURE => 1
        | .MAINTAIN_PRESSURE => 2
        | .ERROR => 3 : Byte) := by
    cases m.state_ <;> rfl
  refine ⟨_, AcceptMessage_get m message htag, rfl, rfl, ?_, ?_, ?_, rfl, rfl, rfl, rfl, rfl,
    rfl, ?_⟩
  · exact (m.pressure_.setByte ⟨kPressureSize - 1, by decide⟩ m.state_.code).2
  · rw [← hc]
    exact h
  · show (m.pressure_.setByte ⟨kPressureSize - 1, by decide⟩ m.state_.code).1[12]? = _
    rw [h]
    simp [floatBytes]
  · intro i
    exact PressureBuf.getFloat_setByte_last m.pressure_ i m.state_.code

/-- C6, the scenario: the module in MAINTAIN_PRESSURE whose reading buffer
holds 60.0, 58.0 and 55.0; the reply ends in the state byte 2. -/
theorem get_reply_witness :
    ∃ m1 : PressureSensorModule,
      AcceptMessage
        (scenario [.sample f55, .sample f58, .accept (holdMessage f50 f60 1 3), .sample f60])
        getMessage = some (true, m1) ∧
      m1.outgoing_message_ready_ = true ∧
      m1.message_.address = 99 ∧
      m1.message_.command.length = 13 ∧
      m1.message_.command = floatBytes f60 ++ floatBytes f58 ++ floatBytes f55 ++ [2] ∧
      m1.message_.command[12]? = some 2 ∧
      m1.state_ = .MAINTAIN_PRESSURE := by
  obtain ⟨m1, h1, h2, h3, h4, h5, h6, h7, _⟩ :=
    get_reply
      (scenario [.sample f55, .sample f58, .accept (holdMessage f50 f60 1 3), .sample f60])
      getMessage (by decide)
  exact ⟨m1, h1, h2, h3, h4, h5.trans (by decide), h6.trans (by decide), h7.trans (by decide)⟩

/-- C7: a message whose leading bytes match neither `"HOLDP"` (5 bytes) nor
`"GETP"` (4 bytes), that is whose first bytes differ from each tag at a byte
received, is not consumed, and the whole module is as before: state, band,
pin, reading history, outbound slot and pending flag. -/
theorem unrecognized_not_consumed (m : PressureSensorModule) (message : Message)
    (hhold : ¬ (message.command.take HOLD_PRESSURE_LENGTH <+: HOLD_PRESSURE))
    (hget : ¬ (message.command.take GET_PRESSURE_LENGTH <+: GET_PRESSURE)) :
    AcceptMessage m message = some (false, m) :=
  AcceptMessage_other m message hhold hget

/-- C7, the scenario: the tag `"XXXX"`. -/
theorem unrecognized_not_consumed_witness :
    AcceptMessage mem0 { address := 1, command := [88, 88, 88, 88] } = some (false, mem0) :=
  unrecognized_not_consumed mem0 { address := 1, command := [88, 88, 88, 88] }
    (by decide) (by decide)

/-- C8, as the code has it: `Tick` puts a new message into the outbound slot
(the valve command of its sample step) only when no message is pending: if
after a `Tick` a message is pending, or the slot holds another message than
before, then nothing was pending before it. `AcceptMessage` has no such guard:
the reply to `GETP` and the close command of a `HOLDP` message whose enable
byte is not 1 are written into the slot whether or not a message is
pending. -/
theorem slot_written_by_tick_only_when_idle (m : PressureSensorModule) (now : Nat)
    (sensor : FloatBits) (message : Message) :
    (((Tick m now sensor).2.outgoing_message_ready_ = true ∨
        (Tick m now sensor).2.message_ ≠ m.message_) →
      m.outgoing_message_ready_ = false) ∧
    (GET_PRESSURE <+: message.command →
      ∃ m1 : PressureSensorModule,
        AcceptMessage m message = some (true, m1) ∧
        m1.outgoing_message_ready_ = true ∧
        m1.message_ =
          { address := kOutgoingAddress
            command :=
              (m.pressure_.setByte ⟨kPressureSize - 1, by decide⟩ m.state_.code).1 }) ∧
    (∀ enable : Byte, HOLD_PRESSURE <+: message.command →
      message.command[HOLD_PRESSURE_LENGTH + 8]? = some enable → enable ≠ 1 →
      ∃ m1 : PressureSensorModule,
        AcceptMessage m message = some (true, m1) ∧
        m1.outgoing_message_ready_ = true ∧
        m1.message_ =
          { address := kLocalAddress, command := kSetIoTag ++ [m.pressure_valve_pin_, 0] }) := by
  refine ⟨?_, ?_, ?_⟩
  · intro h
    cases hr : m.outgoing_message_ready_ with
    | false => rfl
    | true =>
      rw [Tick_pending m now sensor hr] at h
      simp at h
  · intro htag
    exact ⟨_, AcceptMessage_get m message htag, rfl, rfl⟩
  · intro enable htag hen hne
    exact ⟨_, AcceptMessage_hold_disable m message enable htag hen hne, rfl, rfl⟩

/-- C8, an instance: a `Tick` that samples and enqueues the close command, from
the constructed module with nothing pending; a `GETP` accepted while that
command is pending; and a HOLD with enable byte 0 accepted while it is
pending. -/
theorem slot_written_by_tick_only_when_idle_witness :
    (Tick (scenario [.tick 0 f45]) 300 f45).2.outgoing_message_ready_ = true ∧
    (scenario [.tick 0 f45]).outgoing_message_ready_ = false ∧
    (scenario [.tick 0 f45, .tick 300 f45]).outgoing_message_ready_ = true ∧
    (∃ m1 : PressureSensorModule,
      AcceptMessage (scenario [.tick 0 f45, .tick 300 f45]) getMessage = some (true, m1) ∧
      m1.outgoing_message_ready_ = true ∧
      m1.message_ =
        { address := kOutgoingAddress
          command :=
            ((scenario [.tick 0 f45, .tick 300 f45]).pressure_.setByte
              ⟨kPressureSize - 1, by decide⟩
              (scenario [.tick 0 f45, .tick 300 f45]).state_.code).1 }) ∧
    ∃ m1 : PressureSensorModule,
      AcceptMessage (scenario [.tick 0 f45, .tick 300 f45]) (holdMessage f50 f60 0 3) =
        some (true, m1) ∧
      m1.outgoing_message_ready_ = true ∧
      m1.message_ =
        { address := kLocalAddress
          command :=
            kSetIoTag ++ [(scenario [.tick 0 f45, .tick 300 f45]).pressure_valve_pin_, 0] } :=
  ⟨by decide,
    (slot_written_by_tick_only_when_idle (scenario [.tick 0 f45]) 300 f45 getMessage).1
      (Or.inl (by decide)),
    by decide,
    (slot_written_by_tick_only_when_idle (scenario [.tick 0 f45, .tick 300 f45]) 0 f45
      getMessage).2.1 (by decide),
    (slot_written_by_tick_only_when_idle (scenario [.tick 0 f45, .tick 300 f45]) 0 f45
      (holdMessage f50 f60 0 3)).2.2 0 (by decide) (by decide) (by decide)⟩

/-- C8 fails as stated: from the constructed module, a `GETP` message leaves
its reply pending in the slot; a `HOLDP` message with enable byte 0 accepted
before any `Tick` replaces it by the close command, and the reply is never
returned: the next `Tick` returns the close command and the one after it
nothing. -/
theorem slot_overwritten_counterexample :
    (run (construct mem0) [.accept getMessage]).map
        (fun m => (m.outgoing_message_ready_, m.message_.address)) = some (true, 99) ∧
    (run (construct mem0) [.accept getMessage, .accept (holdMessage f50 f60 0 3)]).map
        (fun m => (m.outgoing_message_ready_, m.message_)) =
      some (true, { address := 0, command := kSetIoTag ++ [13, 0] }) ∧
    (Tick (scenario [.accept getMessage, .accept (holdMessage f50 f60 0 3)]) 0 f45).1 =
      some { address := 0, command := kSetIoTag ++ [13, 0] } ∧
    (Tick (scenario [.accept getMessage, .accept (holdMessage f50 f60 0 3), .tick 0 f45])
      1 f45).1 = none :=
  ⟨by decide, by decide, by decide, by decide⟩

/-- C9: with a message pending, `Tick` returns that message, clears the
pending flag and does nothing else (no sample, no timer created or updated;
state, band, pin, reading history unchanged). With nothing pending, `Tick`
returns no message, also when the sample step it runs enqueues one; that one
is returned by the next `Tick`. -/
theorem tick_outbound_priority (m : PressureSensorModule) (now : Nat) (sensor : FloatBits) :
    (m.outgoing_message_ready_ = true →
      Tick m now sensor = (some m.message_, { m with outgoing_message_ready_ := false })) ∧
    (m.outgoing_message_ready_ = false →
      (Tick m now sensor).1 = none ∧
      (tickSamples m now = true → (Tick m now sensor).2 = ReadPressure m sensor) ∧
      ((Tick m now sensor).2.outgoing_message_ready_ = true →
        ∀ (now' : Nat) (sensor' : FloatBits),
          (Tick (Tick m now sensor).2 now' sensor').1 = some (Tick m now sensor).2.message_)) := by
  refine ⟨Tick_pending m now sensor, fun h => ⟨Tick_idle_fst m now sensor h, ?_, ?_⟩⟩
  · exact Tick_samples m now sensor
  · intro hr now' sensor'
    rw [Tick_pending _ now' sensor' hr]

/-- C9, two instances: a `Tick` of a module with a message pending; and, from
the constructed module, the `Tick` at 300 ms that samples and enqueues the
close command, which the next `Tick` returns. -/
theorem tick_outbound_priority_witness :
    Tick mem0 0 f45 = (some mem0.message_, { mem0 with outgoing_message_ready_ := false }) ∧
    (Tick (scenario [.tick 0 f45]) 300 f45).1 = none ∧
    (Tick (scenario [.tick 0 f45]) 300 f45).2 = ReadPressure (scenario [.tick 0 f45]) f45 ∧
    (Tick (Tick (scenario [.tick 0 f45]) 300 f45).2 301 f62).1 =
      some { address := 0, command := kSetIoTag ++ [13, 0] } :=
  ⟨(tick_outbound_priority mem0 0 f45).1 (by decide),
    ((tick_outbound_priority (scenario [.tick 0 f45]) 300 f45).2 (by decide)).1,
    ((tick_outbound_priority (scenario [.tick 0 f45]) 300 f45).2 (by decide)).2.1 (by decide),
    (((tick_outbound_priority (scenario [.tick 0 f45]) 300 f45).2 (by decide)).2.2 (by decide)
      301 f62).trans (by decide)⟩

/-- C10: round trip of the GET reply. Whatever three floats a sample step
wrote into the reading buffer (the reading and the two stored readings, as bit
patterns) and whatever the state is when `GETP` is accepted, decoding the
reply as three 4-byte fields at offsets 0, 4 and 8 and a byte at offset 12
gives these three bit patterns and the state's code. -/
theorem get_reply_round_trip (m : PressureSensorModule) (reading : FloatBits) (s : State)
    (message : Message) (htag : GET_PRESSURE <+: message.command) :
    ∃ m1 : PressureSensorModule,
      AcceptMessage { ReadPressure m reading with state_ := s } message = some (true, m1) ∧
      m1.message_.command.length = 13 ∧
      decodeReply m1.message_.command =
        some (reading, m.last_reading_, m.second_last_reading_, s.code) := by
  refine ⟨_, AcceptMessage_get _ message htag, ?_, ?_⟩
  · exact ((ReadPressure m reading).pressure_.setByte ⟨kPressureSize - 1, by decide⟩ s.code).2
  · show decodeReply ((ReadPressure m reading).pressure_.setByte
      ⟨kPressureSize - 1, by decide⟩ s.code).1 = _
    rw [decodeReply_bytes, PressureBuf.getD_setByte_last]
    simp only [PressureBuf.getFloat_setByte_last]
    rw [ReadPressure_pressure]
    simp

/-- C10, an instance: the stored readings 14 and 15 (bit patterns), a sample of
62.0, and the state ERROR at the time of `GETP`. -/
theorem get_reply_round_trip_witness :
    ∃ m1 : PressureSensorModule,
      AcceptMessage { ReadPressure mem0 f62 with state_ := .ERROR } getMessage =
        some (true, m1) ∧
      m1.message_.command.length = 13 ∧
      decodeReply m1.message_.command = some (f62, 14, 15, 3) :=
  get_reply_round_trip mem0 f62 .ERROR getMessage (by decide)

/-- C11: the valve commands `OpenPressureValve` and `ClosePressureValve`
enqueue, and every message a call (a `Tick`, a sample step, an
`AcceptMessage`) puts into the slot that is not the GET reply for address 99:
they are for address 0, which is not 99, and are exactly 8 bytes, the 6 ASCII
bytes `SET_IO`, the stored pin, and a level that is 0 or 1. -/
theorem valve_command_format (m : PressureSensorModule) (op : Op) (msg : Message) :
    kSetIoTag.map (fun b => b.val) = "SET_IO".toList.map Char.toNat ∧
    kLocalAddress = 0 ∧ kLocalAddress ≠ kOutgoingAddress ∧
    (OpenPressureValve m).message_ =
      { address := 0, command := kSetIoTag ++ [m.pressure_valve_pin_, 1] } ∧
    (ClosePressureValve m).message_ =
      { address := 0, command := kSetIoTag ++ [m.pressure_valve_pin_, 0] } ∧
    (written m op = some msg →
      msg.address = kOutgoingAddress ∨
      (msg.address = 0 ∧ msg.command.length = 8 ∧
        ∃ level : Byte, (level = 0 ∨ level = 1) ∧
          msg.command = kSetIoTag ++ [m.pressure_valve_pin_, level])) := by
  refine ⟨by decide, rfl, by decide, ?_, ?_, ?_⟩
  · simp [OpenPressureValve, SetPressureValve_eq, kLocalAddress]
  · simp [ClosePressureValve, SetPressureValve_eq, kLocalAddress]
  · intro h
    rcases written_cases m op msg h with ⟨r, -, hr⟩ | ⟨message, rfl⟩
    · rcases written_sample_cases m r msg hr with ⟨-, -, rfl⟩ | ⟨rfl, -, -⟩
      · exact Or.inr ⟨rfl, rfl, 1, Or.inr rfl, rfl⟩
      · exact Or.inr ⟨rfl, rfl, 0, Or.inl rfl, rfl⟩
    · rcases written_accept m message msg h with ⟨-, -, rfl⟩ | ⟨-, rfl⟩
      · exact Or.inr ⟨rfl, rfl, 0, Or.inl rfl, rfl⟩
      · exact Or.inl rfl

/-- C11, an instance: the open command of the sample 45.0 after HOLD(50.0,
60.0, enable=1, pin=3). -/
theorem valve_command_format_witness :
    written (scenario [.accept (holdMessage f50 f60 1 3)]) (.sample f45) =
      some { address := 0, command := [83, 69, 84, 95, 73, 79, 3, 1] } ∧
    ((0 : Nat) = kOutgoingAddress ∨
      ((0 : Nat) = 0 ∧ [83, 69, 84, 95, 73, 79, 3, (1 : Byte)].length = 8 ∧
        ∃ level : Byte, (level = 0 ∨ level = 1) ∧
          [83, 69, 84, 95, 73, 79, 3, 1] =
            kSetIoTag ++ [(scenario [.accept (holdMessage f50 f60 1 3)]).pressure_valve_pin_,
              level])) :=
  ⟨by decide,
    (valve_command_format (scenario [.accept (holdMessage f50 f60 1 3)]) (.sample f45)
      { address := 0, command := [83, 69, 84, 95, 73, 79, 3, 1] }).2.2.2.2.2 (by decide)⟩

/-- C12: a sample step, a `Tick` and an accepted `GETP` message leave
`hold_min`, `hold_max` and the pin; a call that changes one of the three is
an `AcceptMessage` of a `HOLDP` message whose enable byte is 1. -/
theorem configuration_frame (m : PressureSensorModule) :
    (∀ r : FloatBits,
      (ReadPressure m r).hold_pressure_mbar_min_ = m.hold_pressure_mbar_min_ ∧
      (ReadPressure m r).hold_pressure_mbar_max_ = m.hold_pressure_mbar_max_ ∧
      (ReadPressure m r).pressure_valve_pin_ = m.pressure_valve_pin_) ∧
    (∀ (now : Nat) (sensor : FloatBits),
      (Tick m now sensor).2.hold_pressure_mbar_min_ = m.hold_pressure_mbar_min_ ∧
      (Tick m now sensor).2.hold_pressure_mbar_max_ = m.hold_pressure_mbar_max_ ∧
      (Tick m now sensor).2.pressure_valve_pin_ = m.pressure_valve_pin_) ∧
    (∀ message : Message, GET_PRESSURE <+: message.command →
      ∃ m1 : PressureSensorModule, AcceptMessage m message = some (true, m1) ∧
        m1.hold_pressure_mbar_min_ = m.hold_pressure_mbar_min_ ∧
        m1.hold_pressure_mbar_max_ = m.hold_pressure_mbar_max_ ∧
        m1.pressure_valve_pin_ = m.pressure_valve_pin_) ∧
    (∀ (op : Op) (m' : PressureSensorModule), op.apply m = some m' →
      (m'.hold_pressure_mbar_min_ ≠ m.hold_pressure_mbar_min_ ∨
        m'.hold_pressure_mbar_max_ ≠ m.hold_pressure_mbar_max_ ∨
        m'.pressure_valve_pin_ ≠ m.pressure_valve_pin_) →
      op.isHoldEnable = true) := by
  have htick : ∀ (now : Nat) (sensor : FloatBits),
      (Tick m now sensor).2.hold_pressure_mbar_min_ = m.hold_pressure_mbar_min_ ∧
      (Tick m now sensor).2.hold_pressure_mbar_max_ = m.hold_pressure_mbar_max_ ∧
      (Tick m now sensor).2.pressure_valve_pin_ = m.pressure_valve_pin_ := by
    intro now sensor
    cases hts : tickSamples m now with
    | true =>
      rw [Tick_samples m now sensor hts]
      exact ReadPressure_config m sensor
    | false =>
      obtain ⟨t, ht, -⟩ := Tick_idle_cases m now sensor hts
      rw [ht]
      exact ⟨rfl, rfl, rfl⟩
  refine ⟨ReadPressure_config m, htick, ?_, ?_⟩
  · intro message htag
    exact ⟨_, AcceptMessage_get m message htag, rfl, rfl, rfl⟩
  · intro op m' happ hne
    rcases apply_cases m m' op happ with ⟨r, -, rfl⟩ | ⟨now, s, t, -, rfl, -⟩ |
      ⟨message, b, rfl, hacc⟩
    · obtain ⟨h1, h2, h3⟩ := ReadPressure_config m r
      rcases hne with h | h | h
      · exact absurd h1 h
      · exact absurd h2 h
      · exact absurd h3 h
    · rcases hne with h | h | h <;> exact absurd rfl h
    · rcases AcceptMessage_cases m message (b, m') hacc with
        ⟨hpre, hen, -⟩ | ⟨-, -, hall⟩ | ⟨-, hall⟩ | ⟨-, -, hall⟩
      · simp [Op.isHoldEnable, hpre, hen]
      · rw [hall] at hacc
        obtain ⟨-, rfl⟩ := Prod.mk.inj (Option.some.inj hacc)
        rcases hne with h | h | h <;> exact absurd rfl h
      · rw [hall] at hacc
        obtain ⟨-, rfl⟩ := Prod.mk.inj (Option.some.inj hacc)
        rcases hne with h | h | h <;> exact absurd rfl h
      · rw [hall] at hacc
        obtain ⟨-, rfl⟩ := Prod.mk.inj (Option.some.inj hacc)
        rcases hne with h | h | h <;> exact absurd rfl h

/-- C12, an instance: HOLD(50.0, 60.0, enable=1, pin=3) changes the band of
the constructed module, and it is a `HOLDP` message with enable byte 1. -/
theorem configuration_frame_witness :
    (∃ m1 : PressureSensorModule, AcceptMessage (construct mem0) getMessage = some (true, m1) ∧
      m1.hold_pressure_mbar_min_ = 11 ∧ m1.hold_pressure_mbar_max_ = 12 ∧
      m1.pressure_valve_pin_ = 13) ∧
    (scenario [.accept (holdMessage f50 f60 1 3)]).hold_pressure_mbar_min_ = f50 ∧
    Op.isHoldEnable (.accept (holdMessage f50 f60 1 3)) = true :=
  ⟨(configuration_frame (construct mem0)).2.2.1 getMessage (by decide), by decide,
    (configuration_frame (construct mem0)).2.2.2 (.accept (holdMessage f50 f60 1 3))
      (scenario [.accept (holdMessage f50 f60 1 3)]) (by decide) (Or.inl (by decide))⟩

/-- C13, as the code has it: after a sample step with reading `r` the stored
previous reading is `r`; the stored reading before that is the previous
reading the module had before the step, unless the step zeroed the trend
history (it ran in MAINTAIN_PRESSURE with a reading below `hold_min`, or in
ERROR), and is 0.0 then. -/
theorem history_shift (m : PressureSensorModule) (r : FloatBits) :
    (ReadPressure m r).last_reading_ = r ∧
    (resetsHistory m r = false →
      (ReadPressure m r).second_last_reading_ = m.last_reading_) ∧
    (resetsHistory m r = true → (ReadPressure m r).second_last_reading_ = 0) := by
  obtain ⟨h1, h2⟩ := ReadPressure_history m r
  refine ⟨h1, fun h => ?_, fun h => ?_⟩
  · rw [h2, h]
    rfl
  · rw [h2, h]
    rfl

/-- C13, two instances: after HOLD(50.0, 60.0, enable=1, pin=3) and a sample of
55.0, a sample of 58.0 shifts the history and a sample of 45.0 zeroes it. -/
theorem history_shift_witness :
    (scenario [.accept (holdMessage f50 f60 1 3), .sample f55]).last_reading_ = f55 ∧
    (ReadPressure (scenario [.accept (holdMessage f50 f60 1 3), .sample f55])
      f58).second_last_reading_ = f55 ∧
    (ReadPressure (scenario [.accept (holdMessage f50 f60 1 3), .sample f55])
      f45).second_last_reading_ = 0 :=
  ⟨by decide,
    ((history_shift (scenario [.accept (holdMessage f50 f60 1 3), .sample f55]) f58).2.1
      (by decide)).trans (by decide),
    (history_shift (scenario [.accept (holdMessage f50 f60 1 3), .sample f55]) f45).2.2
      (by decide)⟩

/-- C13 fails as stated: after HOLD(50.0, 60.0, enable=1, pin=3) and a sample
of 55.0 the previous reading is 55.0; the sample step with 45.0 (state
MAINTAIN_PRESSURE, reading below 50.0) leaves 45.0 as previous reading and
0.0, not 55.0, as the reading before that. -/
theorem history_shift_counterexample :
    (scenario [.accept (holdMessage f50 f60 1 3), .sample f55]).state_ = .MAINTAIN_PRESSURE ∧
    (scenario [.accept (holdMessage f50 f60 1 3), .sample f55]).last_reading_ = f55 ∧
    (ReadPressure (scenario [.accept (holdMessage f50 f60 1 3), .sample f55])
      f45).last_reading_ = f45 ∧
    (ReadPressure (scenario [.accept (holdMessage f50 f60 1 3), .sample f55])
      f45).second_last_reading_ = 0 ∧
    (ReadPressure (scenario [.accept (holdMessage f50 f60 1 3), .sample f55])
      f45).second_last_reading_ ≠
      (scenario [.accept (holdMessage f50 f60 1 3), .sample f55]).last_reading_ :=
  ⟨by decide, by decide, by decide, by decide, by decide⟩

/-- C14: from the constructed module, after every sequence of `Tick` calls,
sample steps and `AcceptMessage` calls the state is not ERROR, and the timer
`Tick` has created, when there is one, has the delay 300 ms, not 2000 ms. -/
theorem error_unreachable (mem m : PressureSensorModule) (ops : List Op)
    (hrun : run (construct mem) ops = some m) :
    m.state_ ≠ .ERROR ∧ ∀ t : TimedCallback, m.timed_callback_ = some t → t.delay_ms = 300 :=
  run_induction
    (fun m => m.state_ ≠ .ERROR ∧
      ∀ t : TimedCallback, m.timed_callback_ = some t → t.delay_ms = 300)
    apply_no_error ops (construct mem) m
    ⟨by simp [construct], fun t h => absurd h (by simp [construct])⟩ hrun

/-- C14, an instance: memory that held ERROR before construction, then a
`Tick`, a HOLD, a sample and a `Tick` that creates a timer. -/
theorem error_unreachable_witness :
    mem0.state_ = .ERROR ∧
    run (construct mem0)
      [.tick 0 f45, .accept (holdMessage f50 f60 1 3), .sample f45, .tick 1 f45, .tick 2 f45] =
      some (scenario
        [.tick 0 f45, .accept (holdMessage f50 f60 1 3), .sample f45, .tick 1 f45,
          .tick 2 f45]) ∧
    (scenario
      [.tick 0 f45, .accept (holdMessage f50 f60 1 3), .sample f45, .tick 1 f45,
        .tick 2 f45]).timed_callback_ = some { delay_ms := 300, start_ms := 2 } ∧
    (scenario
      [.tick 0 f45, .accept (holdMessage f50 f60 1 3), .sample f45, .tick 1 f45,
        .tick 2 f45]).state_ ≠ .ERROR :=
  ⟨by decide, by decide, by decide,
    (error_unreachable mem0
      (scenario
        [.tick 0 f45, .accept (holdMessage f50 f60 1 3), .sample f45, .tick 1 f45,
          .tick 2 f45])
      [.tick 0 f45, .accept (holdMessage f50 f60 1 3), .sample f45, .tick 1 f45, .tick 2 f45]
      (by decide)).1⟩

/-- C15: when a sample step (called directly or by `Tick`) enqueues a valve
command with level 1, the state before it was MAINTAIN_PRESSURE, the reading
is strictly below `hold_min` and the state after it is INCREASE_PRESSURE; and
no `AcceptMessage` enqueues a valve command with level 1: a call that enqueues
one is a sample step. -/
theorem open_only_under_pressure (m : PressureSensorModule) (op : Op) (msg : Message)
    (hw : written m op = some msg) (hl : valveLevel? msg = some 1) :
    (∀ message : Message, op ≠ .accept message) ∧
    ∃ r : FloatBits, op.reading? m = some r ∧
      m.state_ = .MAINTAIN_PRESSURE ∧
      floatLt r m.hold_pressure_mbar_min_ = true ∧
      op.apply m = some (ReadPressure m r) ∧
      (ReadPressure m r).state_ = .INCREASE_PRESSURE := by
  obtain ⟨r, hr, h⟩ := written_open m op msg hw hl
  refine ⟨fun message hop => ?_, r, hr, h⟩
  rw [hop] at hr
  exact absurd hr (by simp [Op.reading?])

/-- C15, an instance: the `Tick` at 300 ms after HOLD(50.0, 60.0, enable=1,
pin=3) and a `Tick` at 0 ms samples 45.0 and enqueues the open command. -/
theorem open_only_under_pressure_witness :
    written (scenario [.accept (holdMessage f50 f60 1 3), .tick 0 f45]) (.tick 300 f45) =
      some { address := 0, command := kSetIoTag ++ [3, 1] } ∧
    (∀ message : Message, Op.tick 300 f45 ≠ .accept message) ∧
    ∃ r : FloatBits,
      Op.reading? (scenario [.accept (holdMessage f50 f60 1 3), .tick 0 f45]) (.tick 300 f45) =
        some r ∧
      (scenario [.accept (holdMessage f50 f60 1 3), .tick 0 f45]).state_ = .MAINTAIN_PRESSURE ∧
      floatLt r
        (scenario [.accept (holdMessage f50 f60 1 3), .tick 0 f45]).hold_pressure_mbar_min_ =
        true ∧
      Op.apply (scenario [.accept (holdMessage f50 f60 1 3), .tick 0 f45]) (.tick 300 f45) =
        some (ReadPressure (scenario [.accept (holdMessage f50 f60 1 3), .tick 0 f45]) r) ∧
      (ReadPressure (scenario [.accept (holdMessage f50 f60 1 3), .tick 0 f45]) r).state_ =
        .INCREASE_PRESSURE :=
  ⟨by decide,
    open_only_under_pressure (scenario [.accept (holdMessage f50 f60 1 3), .tick 0 f45])
      (.tick 300 f45) { address := 0, command := kSetIoTag ++ [3, 1] } (by decide) (by decide)⟩

/-- C16, as the code has it: whenever a sample step enqueues a close command
while the most recently enqueued valve command is an open command and no
`HOLDP` message with enable byte 1 was accepted since that open command, the
reading of the step is strictly above the current `hold_max` (and a sample
step enqueues nothing but a close command then). The calls are
`opOpen`, which enqueues the open command from any module `m0` (one reached
from construction, for one), the calls `mid`, which enqueue no valve command,
and `opClose`. -/
theorem close_after_open_above_max (m0 m1 m2 : PressureSensorModule) (opOpen opClose : Op)
    (mid : List Op) (r : FloatBits) (msgOpen msgClose : Message)
    (hopen : written m0 opOpen = some msgOpen) (hlo : valveLevel? msgOpen = some 1)
    (happ : opOpen.apply m0 = some m1) (hrun : run m1 mid = some m2)
    (hquiet : ∀ msg ∈ writtenLog m1 mid, valveLevel? msg = none)
    (hhold : ∀ op ∈ mid, op.isHoldEnable = false)
    (hr : opClose.reading? m2 = some r) (hclose : written m2 opClose = some msgClose) :
    valveLevel? msgClose = some 0 ∧ floatLt m2.hold_pressure_mbar_max_ r = true := by
  obtain ⟨r0, -, -, -, happ0, hs1⟩ := written_open m0 opOpen msgOpen hopen hlo
  rw [happ0] at happ
  have hs1' : m1.state_ = .INCREASE_PRESSURE := Option.some.inj happ ▸ hs1
  have hs2 := run_increase mid m1 m2 hs1' hrun hhold hquiet
  rw [(apply_of_reading m2 opClose r hr).2] at hclose
  rcases written_sample_cases m2 r msgClose hclose with ⟨hm, -, -⟩ | ⟨rfl, -, hinc⟩
  · rw [hs2] at hm
    exact absurd hm (by decide)
  · exact ⟨valveLevel?_command _ 0, hinc hs2⟩

/-- C16, an instance: after HOLD(50.0, 60.0, enable=1, pin=3) the sample 45.0
opens the valve; a `Tick`, a `GETP` message and the sample 55.0 enqueue no valve
command; the sample 62.0 closes the valve. -/
theorem close_after_open_above_max_witness :
    written (scenario [.accept (holdMessage f50 f60 1 3)]) (.sample f45) =
      some { address := 0, command := kSetIoTag ++ [3, 1] } ∧
    written
      (scenario [.accept (holdMessage f50 f60 1 3), .sample f45, .tick 0 f55,
        .accept getMessage, .sample f55])
      (.sample f62) = some { address := 0, command := kSetIoTag ++ [3, 0] } ∧
    valveLevel? { address := 0, command := kSetIoTag ++ [3, 0] } = some 0 ∧
    floatLt
      (scenario [.accept (holdMessage f50 f60 1 3), .sample f45, .tick 0 f55,
        .accept getMessage, .sample f55]).hold_pressure_mbar_max_ f62 = true :=
  ⟨by decide, by decide,
    close_after_open_above_max (scenario [.accept (holdMessage f50 f60 1 3)])
      (scenario [.accept (holdMessage f50 f60 1 3), .sample f45])
      (scenario [.accept (holdMessage f50 f60 1 3), .sample f45, .tick 0 f55,
        .accept getMessage, .sample f55])
      (.sample f45) (.sample f62) [.tick 0 f55, .accept getMessage, .sample f55] f62
      { address := 0, command := kSetIoTag ++ [3, 1] }
      { address := 0, command := kSetIoTag ++ [3, 0] }
      (by decide) (by decide) (by decide) (by decide)
      (by
        intro msg hmsg
        have hall : (writtenLog (scenario [.accept (holdMessage f50 f60 1 3), .sample f45])
            [.tick 0 f55, .accept getMessage, .sample f55]).all
            (fun msg => decide (valveLevel? msg = none)) = true := by
          decide
        exact of_decide_eq_true (List.all_eq_true.mp hall msg hmsg))
      (by
        intro op hop
        simp only [List.mem_cons, List.mem_singleton, List.mem_nil_iff, or_false] at hop
        rcases hop with rfl | rfl | rfl <;> decide)
      (by decide) (by decide)⟩

/-- C16 fails as stated: from the constructed module, HOLD(50.0, 60.0, enable=1,
pin=3) and the sample 45.0 enqueue the open command; the same HOLD accepted
again enqueues nothing and sets MAINTAIN_PRESSURE; the sample 55.0 then
enqueues the close command, and 55.0 is not above `hold_max` = 60.0. -/
theorem close_after_open_counterexample :
    writtenLog (construct mem0)
      [.accept (holdMessage f50 f60 1 3), .sample f45, .accept (holdMessage f50 f60 1 3)] =
      [{ address := 0, command := kSetIoTag ++ [3, 1] }] ∧
    valveLevel? { address := 0, command := kSetIoTag ++ [3, 1] } = some 1 ∧
    (run (construct mem0)
      [.accept (holdMessage f50 f60 1 3), .sample f45, .accept (holdMessage f50 f60 1 3)]).map
        (fun m => (written m (.sample f55), m.hold_pressure_mbar_max_)) =
      some (some { address := 0, command := kSetIoTag ++ [3, 0] }, f60) ∧
    valveLevel? { address := 0, command := kSetIoTag ++ [3, 0] } = some 0 ∧
    floatLt f60 f55 = false :=
  ⟨by decide, by decide, by decide, by decide, by decide⟩

/-- C17: in MAINTAIN_PRESSURE a sample step with a reading that is not
strictly below `hold_min` (equal to it, for one) leaves the state
MAINTAIN_PRESSURE and enqueues the valve command with level 0; the trend
history is shifted, not zeroed. -/
theorem maintain_closes (m : PressureSensorModule) (r : FloatBits)
    (hs : m.state_ = .MAINTAIN_PRESSURE) (hr : floatLt r m.hold_pressure_mbar_min_ = false) :
    (ReadPressure m r).state_ = .MAINTAIN_PRESSURE ∧
    (ReadPressure m r).outgoing_message_ready_ = true ∧
    (ReadPressure m r).message_ =
      { address := kLocalAddress, command := kSetIoTag ++ [m.pressure_valve_pin_, 0] } ∧
    written m (.sample r) =
      some { address := kLocalAddress, command := kSetIoTag ++ [m.pressure_valve_pin_, 0] } ∧
    (ReadPressure m r).last_reading_ = r ∧
    (ReadPressure m r).second_last_reading_ = m.last_reading_ := by
  refine ⟨?_, ?_, ?_, ?_, ?_, ?_⟩
  · rw [ReadPressure_maintain_ge m r hs hr]
    exact hs
  · rw [ReadPressure_maintain_ge m r hs hr]
  · rw [ReadPressure_maintain_ge m r hs hr]
  · rw [written_sample, hs]
    simp [hr]
  · rw [ReadPressure_maintain_ge m r hs hr]
  · rw [ReadPressure_maintain_ge m r hs hr]

/-- C17, an instance: band 50.0 to 60.0, previous reading 55.0, and a reading
equal to `hold_min`. -/
theorem maintain_closes_witness :
    (ReadPressure (scenario [.accept (holdMessage f50 f60 1 3), .sample f55]) f50).state_ =
      .MAINTAIN_PRESSURE ∧
    (ReadPressure (scenario [.accept (holdMessage f50 f60 1 3), .sample f55])
      f50).outgoing_message_ready_ = true ∧
    (ReadPressure (scenario [.accept (holdMessage f50 f60 1 3), .sample f55]) f50).message_ =
      { address := kLocalAddress, command := kSetIoTag ++ [3, 0] } ∧
    written (scenario [.accept (holdMessage f50 f60 1 3), .sample f55]) (.sample f50) =
      some { address := kLocalAddress, command := kSetIoTag ++ [3, 0] } ∧
    (ReadPressure (scenario [.accept (holdMessage f50 f60 1 3), .sample f55])
      f50).last_reading_ = f50 ∧
    (ReadPressure (scenario [.accept (holdMessage f50 f60 1 3), .sample f55])
      f50).second_last_reading_ = f55 :=
  maintain_closes (scenario [.accept (holdMessage f50 f60 1 3), .sample f55]) f50
    (by decide) (by decide)

/-- C18: in DEPRESSURIZED a sample step with any reading leaves the state
DEPRESSURIZED and enqueues the close command; over any sequence of `Tick`
calls, sample steps, `GETP` messages and `HOLDP` messages whose enable byte is
not 1 the state stays DEPRESSURIZED and no open command is enqueued; and a
call that leaves DEPRESSURIZED is a `HOLDP` message whose enable byte is 1. -/
theorem depressurized_absorbing (m : PressureSensorModule) (hs : m.state_ = .DEPRESSURIZED) :
    (∀ r : FloatBits,
      (ReadPressure m r).state_ = .DEPRESSURIZED ∧
      (ReadPressure m r).outgoing_message_ready_ = true ∧
      (ReadPressure m r).message_ =
        { address := kLocalAddress, command := kSetIoTag ++ [m.pressure_valve_pin_, 0] } ∧
      written m (.sample r) =
        some { address := kLocalAddress, command := kSetIoTag ++ [m.pressure_valve_pin_, 0] }) ∧
    (∀ ops : List Op, (∀ op ∈ ops, op.isNoHoldEnable = true) →
      ∃ m' : PressureSensorModule, run m ops = some m' ∧ m'.state_ = .DEPRESSURIZED ∧
        ∀ msg ∈ writtenLog m ops, valveLevel? msg ≠ some 1) ∧
    (∀ (op : Op) (m' : PressureSensorModule), op.apply m = some m' →
      m'.state_ ≠ .DEPRESSURIZED → op.isHoldEnable = true) := by
  refine ⟨fun r => ?_, fun ops hq => run_depressurized ops m hs hq, fun op m' happ hne => ?_⟩
  · refine ⟨?_, ?_, ?_, ?_⟩
    · rw [ReadPressure_depressurized m r hs]
      exact hs
    · rw [ReadPressure_depressurized m r hs]
    · rw [ReadPressure_depressurized m r hs]
    · rw [written_sample, hs]
  · rcases apply_cases m m' op happ with ⟨r, -, rfl⟩ | ⟨now, s, t, -, rfl, -⟩ |
      ⟨message, b, rfl, hacc⟩
    · rw [ReadPressure_depressurized m r hs] at hne
      exact absurd hs hne
    · exact absurd hs hne
    · rcases AcceptMessage_cases m message (b, m') hacc with
        ⟨hpre, hen, -⟩ | ⟨-, -, hall⟩ | ⟨-, hall⟩ | ⟨-, -, hall⟩
      · simp [Op.isHoldEnable, hpre, hen]
      · rw [hall] at hacc
        obtain ⟨-, rfl⟩ := Prod.mk.inj (Option.some.inj hacc)
        exact absurd rfl hne
      · rw [hall] at hacc
        obtain ⟨-, rfl⟩ := Prod.mk.inj (Option.some.inj hacc)
        exact absurd hs hne
      · rw [hall] at hacc
        obtain ⟨-, rfl⟩ := Prod.mk.inj (Option.some.inj hacc)
        exact absurd hs hne

/-- C18, an instance: the constructed module, a run of a `Tick`, a sample, a
`GETP` message, a HOLD with enable byte 0 and a `Tick` that samples; and the
HOLD with enable byte 1 that leaves the state. -/
theorem depressurized_absorbing_witness :
    (construct mem0).state_ = .DEPRESSURIZED ∧
    (ReadPressure (construct mem0) f45).state_ = .DEPRESSURIZED ∧
    (∃ m' : PressureSensorModule,
      run (construct mem0)
        [.tick 0 f45, .sample f45, .accept getMessage, .accept (holdMessage f50 f60 0 3),
          .tick 1 f45, .tick 2 f45, .tick 400 f45] = some m' ∧
      m'.state_ = .DEPRESSURIZED ∧
      ∀ msg ∈ writtenLog (construct mem0)
        [.tick 0 f45, .sample f45, .accept getMessage, .accept (holdMessage f50 f60 0 3),
          .tick 1 f45, .tick 2 f45, .tick 400 f45], valveLevel? msg ≠ some 1) ∧
    (scenario [.accept (holdMessage f50 f60 1 3)]).state_ = .MAINTAIN_PRESSURE ∧
    Op.isHoldEnable (.accept (holdMessage f50 f60 1 3)) = true :=
  ⟨by decide, ((depressurized_absorbing (construct mem0) (by decide)).1 f45).1,
    (depressurized_absorbing (construct mem0) (by decide)).2.1
      [.tick 0 f45, .sample f45, .accept getMessage, .accept (holdMessage f50 f60 0 3),
        .tick 1 f45, .tick 2 f45, .tick 400 f45]
      (by
        intro op hop
        simp only [List.mem_cons, List.mem_singleton, List.mem_nil_iff, or_false] at hop
        rcases hop with rfl | rfl | rfl | rfl | rfl | rfl | rfl <;> decide),
    by decide,
    (depressurized_absorbing (construct mem0) (by decide)).2.2
      (.accept (holdMessage f50 f60 1 3)) (scenario [.accept (holdMessage f50 f60 1 3)])
      (by decide) (by decide)⟩

/-- C19: in ERROR one sample step with any reading `r` sets the state to
MAINTAIN_PRESSURE, enqueues the valve command with level 0 and zeroes the
trend history, so that afterwards the reading before the previous one is 0.0
and the previous reading is `r`; and after a sample step the state is never
ERROR, whatever the state before. -/
theorem error_recovers (m : PressureSensorModule) (r : FloatBits) :
    (m.state_ = .ERROR →
      (ReadPressure m r).state_ = .MAINTAIN_PRESSURE ∧
      (ReadPressure m r).outgoing_message_ready_ = true ∧
      (ReadPressure m r).message_ =
        { address := kLocalAddress, command := kSetIoTag ++ [m.pressure_valve_pin_, 0] } ∧
      written m (.sample r) =
        some { address := kLocalAddress, command := kSetIoTag ++ [m.pressure_valve_pin_, 0] } ∧
      (ReadPressure m r).second_last_reading_ = 0 ∧
      (ReadPressure m r).last_reading_ = r) ∧
    (ReadPressure m r).state_ ≠ .ERROR := by
  refine ⟨fun hs => ?_, ReadPressure_state_ne_error m r⟩
  refine ⟨?_, ?_, ?_, ?_, ?_, ?_⟩
  · rw [ReadPressure_error m r hs]
  · rw [ReadPressure_error m r hs]
  · rw [ReadPressure_error m r hs]
  · rw [written_sample, hs]
  · rw [ReadPressure_error m r hs]
  · rw [ReadPressure_error m r hs]

/-- C19, an instance: a module in ERROR with pin 13 and the reading 45.0. -/
theorem error_recovers_witness :
    mem0.state_ = .ERROR ∧
    (ReadPressure mem0 f45).state_ = .MAINTAIN_PRESSURE ∧
    (ReadPressure mem0 f45).outgoing_message_ready_ = true ∧
    (ReadPressure mem0 f45).message_ =
      { address := kLocalAddress, command := kSetIoTag ++ [13, 0] } ∧
    written mem0 (.sample f45) =
      some { address := kLocalAddress, command := kSetIoTag ++ [13, 0] } ∧
    (ReadPressure mem0 f45).second_last_reading_ = 0 ∧
    (ReadPressure mem0 f45).last_reading_ = f45 :=
  ⟨by decide, (error_recovers mem0 f45).1 (by decide)⟩

/-- C20: with `hold_min <= hold_max`, in every state but ERROR and for every
reading, the state after two sample steps with the same reading is the state
after one: a constant reading flips the state at most once. And there is a
band with `hold_min > hold_max` and a reading for which the state flips on
both steps. -/
theorem no_chatter (m : PressureSensorModule) (r : FloatBits)
    (hb : floatLe m.hold_pressure_mbar_min_ m.hold_pressure_mbar_max_ = true)
    (hs : m.state_ = .DEPRESSURIZED ∨ m.state_ = .MAINTAIN_PRESSURE ∨
      m.state_ = .INCREASE_PRESSURE) :
    (ReadPressure (ReadPressure m r) r).state_ = (ReadPressure m r).state_ ∧
    ∃ (m2 : PressureSensorModule) (r2 : FloatBits),
      floatLt m2.hold_pressure_mbar_max_ m2.hold_pressure_mbar_min_ = true ∧
      m2.state_ = .MAINTAIN_PRESSURE ∧
      (ReadPressure m2 r2).state_ ≠ m2.state_ ∧
      (ReadPressure (ReadPressure m2 r2) r2).state_ ≠ (ReadPressure m2 r2).state_ := by
  constructor
  · obtain ⟨hmin, hmax, -⟩ := ReadPressure_config m r
    rw [ReadPressure_state (ReadPressure m r) r, hmin, hmax, ReadPressure_state m r]
    rcases hs with hs | hs | hs
    · simp [hs]
    · cases hlt : floatLt r m.hold_pressure_mbar_min_ with
      | true => simp [hs, hlt, floatLt_of_band hb hlt]
      | false => simp [hs, hlt]
    · cases hgt : floatLt m.hold_pressure_mbar_max_ r with
      | true => simp [hs, hgt, floatLt_of_band_above hb hgt]
      | false => simp [hs, hgt]
  · exact ⟨scenario [.accept (holdMessage f60 f50 1 3)], f55, by decide, by decide, by decide,
      by decide⟩

/-- C20, an instance: the band 50.0 to 60.0 in MAINTAIN_PRESSURE and the
reading 45.0, which flips the state once. -/
theorem no_chatter_witness :
    (ReadPressure (scenario [.accept (holdMessage f50 f60 1 3)]) f45).state_ =
      .INCREASE_PRESSURE ∧
    (ReadPressure (ReadPressure (scenario [.accept (holdMessage f50 f60 1 3)]) f45) f45).state_ =
      (ReadPressure (scenario [.accept (holdMessage f50 f60 1 3)]) f45).state_ :=
  ⟨by decide,
    (no_chatter (scenario [.accept (holdMessage f50 f60 1 3)]) f45 (by decide)
      (Or.inr (Or.inl (by decide)))).1⟩

end nebree8
